import Mathlib

set_option autoImplicit false

/- Shallow embedding of src/app.py ("Dental Bot V11"): the sqlite data model
   (tables users / states / slots), the pure logic of the /webhook handler, the
   slot allocator (ensure_future_slots, get_available_slots, book_slot_atomic)
   and the reminder scanner (get_pending_reminders, /trigger-reminders).
   External I/O is modelled explicitly: Telegram sends become an output effect
   trace, the Gemini HTTP calls and getFile become oracle inputs, and the wall
   clock (datetime.now(DUBAI_TZ) and its strftime projections) becomes a Clock
   record of the date strings the code derives from it. -/

/- ### Python / SQLite string primitives -/

/-- Python str(x) for an optional string, as used by f-string interpolation:
    str(None) renders as the four characters None. -/
def pyStr : Option String → String
  | some s => s
  | none => "None"

/-- The whitespace characters Python str.strip removes. -/
def isPySpace (c : Char) : Bool :=
  c == ' ' || c == '\t' || c == '\n' || c == '\r' || c == '\x0b' || c == '\x0c'

/-- Python str.strip(): drop whitespace from both ends. -/
def pyStrip (s : String) : String :=
  ⟨((s.data.dropWhile isPySpace).reverse.dropWhile isPySpace).reverse⟩

/-- Boolean list-prefix test. -/
def listPrefixOf : List Char → List Char → Bool
  | [], _ => true
  | _ :: _, [] => false
  | a :: as, b :: bs => a == b && listPrefixOf as bs

/-- Python s.startswith(pre). -/
def pyStartsWith (s pre : String) : Bool := listPrefixOf pre.data s.data

/-- Replace every non-overlapping occurrence of needle (left to right) by
    repl; fuel bounds the recursion by the subject length. -/
def pyReplaceAux : Nat → List Char → List Char → List Char → List Char
  | 0, _, _, s => s
  | fuel + 1, needle, repl, s =>
    match s with
    | [] => []
    | c :: rest =>
      if listPrefixOf needle (c :: rest) && !needle.isEmpty then
        repl ++ pyReplaceAux fuel needle repl (List.drop needle.length (c :: rest))
      else c :: pyReplaceAux fuel needle repl rest

/-- Python s.replace(old, new) for a non-empty old. -/
def pyReplace (s old new : String) : String :=
  ⟨pyReplaceAux (s.data.length + 1) old.data new.data s.data⟩

/-- Python s.split(sep) for the one-character separator " " (keeps empty
    parts). -/
def pySplitSpaceAux : List Char → List Char → List (List Char)
  | [], acc => [acc.reverse]
  | c :: rest, acc =>
    if c == ' ' then acc.reverse :: pySplitSpaceAux rest []
    else pySplitSpaceAux rest (c :: acc)

/-- Python dt_str.split(" "). -/
def pySplitSpace (s : String) : List String :=
  (pySplitSpaceAux s.data []).map (fun cs => ⟨cs⟩)

/-- Python character slicing s[n:]. -/
def strDropChars (s : String) (n : Nat) : String := ⟨s.data.drop n⟩

/-- The decimal digit character of d < 10. -/
def digitChar (d : Nat) : Char := Char.ofNat (48 + d)

/-- Decimal rendering of a natural number (fuel-bounded division loop). -/
def natDigits : Nat → Nat → List Char
  | 0, _ => []
  | fuel + 1, n =>
    if n < 10 then [digitChar n]
    else natDigits fuel (n / 10) ++ [digitChar (n % 10)]

/-- Python str(n) for a natural number. -/
def pyStrNat (n : Nat) : String := ⟨natDigits (n + 1) n⟩

/-- Python str(i) for an integer. -/
def pyStrInt : Int → String
  | .ofNat n => pyStrNat n
  | .negSucc n => "-" ++ pyStrNat (n + 1)

/-- Lexicographic byte-wise comparison of the underlying characters: SQLite
    BINARY collation on the ASCII datetime strings this program compares. -/
def listLtChars : List Char → List Char → Bool
  | [], [] => false
  | [], _ :: _ => true
  | _ :: _, [] => false
  | a :: as, b :: bs =>
    if a.toNat < b.toNat then true
    else if a == b then listLtChars as bs
    else false

/-- SQLite s < t on TEXT columns. -/
def strLt (s t : String) : Bool := listLtChars s.data t.data

/-- ASCII lower-casing of one character (used by SQLite LIKE, which is
    case-insensitive for ASCII only). -/
def asciiLower (c : Char) : Char :=
  if 'A' ≤ c ∧ c ≤ 'Z' then Char.ofNat (c.toNat + 32) else c

/-- Python str.lower for the characters this program compares: ASCII letters
    plus the Cyrillic capitals А-Я and Ё (the only non-ASCII cased letters
    occurring in its keyword checks; Arabic and Farsi are caseless). -/
def pyLowerChar (c : Char) : Char :=
  if 'A' ≤ c ∧ c ≤ 'Z' then Char.ofNat (c.toNat + 32)
  else if 'А' ≤ c ∧ c ≤ 'Я' then Char.ofNat (c.toNat + 32)
  else if c = 'Ё' then 'ё'
  else c

/-- Python text.lower() restricted as in pyLowerChar. -/
def pyLower (s : String) : String := ⟨s.data.map pyLowerChar⟩

/-- Boolean list-infix test. -/
def listInfixOf (needle : List Char) : List Char → Bool
  | [] => needle.isEmpty
  | c :: rest => listPrefixOf needle (c :: rest) || listInfixOf needle rest

/-- Python `sub in s` substring containment. -/
def strContains (s sub : String) : Bool := listInfixOf sub.toList s.toList

/-- SQLite LIKE pattern matching over characters: `%` matches any run,
    `_` one character, letters compare ASCII-case-insensitively. Each
    recursive call shrinks the combined length, so the fuel (combined length
    plus one) never runs out. -/
def sqlLikeFuel : Nat → List Char → List Char → Bool
  | 0, _, _ => false
  | fuel + 1, ps, s =>
    match ps, s with
    | [], [] => true
    | [], _ :: _ => false
    | '%' :: ps2, s =>
      sqlLikeFuel fuel ps2 s ||
        (match s with
         | [] => false
         | _ :: s2 => sqlLikeFuel fuel ('%' :: ps2) s2)
    | '_' :: ps2, s =>
      (match s with
       | [] => false
       | _ :: s2 => sqlLikeFuel fuel ps2 s2)
    | _ :: _, [] => false
    | p :: ps2, c :: s2 => (asciiLower p == asciiLower c) && sqlLikeFuel fuel ps2 s2

/-- SQLite `subject LIKE pat`. -/
def sqlLike (pat subject : String) : Bool :=
  sqlLikeFuel (pat.data.length + subject.data.length + 1) pat.data subject.data

/-- Insert into a ≤-sorted list of strings (SQLite binary collation, which on
    these ASCII datetime strings agrees with Lean's lexicographic String.lt). -/
def insertSorted (s : String) : List String → List String
  | [] => [s]
  | t :: ts => if strLt t s then t :: insertSorted s ts else s :: t :: ts

/-- ORDER BY datetime_str ASC on a selected column of strings. -/
def sortStrs : List String → List String
  | [] => []
  | s :: ss => insertSorted s (sortStrs ss)

/-- Python f"{hour:02d}". -/
def twoDigit (h : Nat) : String := if h < 10 then "0" ++ pyStrNat h else pyStrNat h

/- ### Data model: rows of the three sqlite tables -/

/-- A row of `users (chat_id INTEGER PRIMARY KEY, name, whatsapp, phone, lang)`.
    NULL-able TEXT columns are Option String. -/
structure UserRow where
  chat_id : Int
  name : Option String
  whatsapp : Option String
  phone : Option String
  lang : String
deriving Repr, DecidableEq

/-- The JSON scratch dict stored in states.data: the keys the program ever
    writes (lang, name, whatsapp, service, doctor); a missing key is none. -/
structure SessData where
  lang : Option String := none
  name : Option String := none
  whatsapp : Option String := none
  service : Option String := none
  doctor : Option String := none
deriving Repr, DecidableEq

/-- A row of `states (chat_id INTEGER PRIMARY KEY, flow_type, step, data)`. -/
structure StateRow where
  chat_id : Int
  flow_type : String
  step : String
  data : SessData
deriving Repr, DecidableEq

/-- A row of `slots (id INTEGER PRIMARY KEY AUTOINCREMENT, datetime_str TEXT
    UNIQUE, is_booked, booked_by, reminder_sent)`. -/
structure SlotRow where
  id : Nat
  datetime_str : String
  is_booked : Bool
  booked_by : Option Int
  reminder_sent : Bool
deriving Repr, DecidableEq

/-- The whole database; lists are kept in row order (slots in AUTOINCREMENT
    id order, which is the scan order of an un-ORDERed SELECT).
    nextSlotId models the AUTOINCREMENT counter. -/
structure DB where
  users : List UserRow
  states : List StateRow
  slots : List SlotRow
  nextSlotId : Nat := 0
deriving Repr, DecidableEq

/-- The projections of datetime.now(DUBAI_TZ) the code takes: its
    "%Y-%m-%d %H:%M" rendering, the "%Y-%m-%d" date d days ahead
    (timedelta(days=d)) and the date one day back. -/
structure Clock where
  nowStr : String
  futureDayStr : Nat → String
  yesterdayStr : String

/- ### Database helpers (translations of the sqlite statements) -/

/-- SELECT flow_type, step, data FROM states WHERE chat_id=? (fetchone). -/
def getState (db : DB) (chat : Int) : Option StateRow :=
  db.states.find? (fun r => r.chat_id == chat)

/-- DELETE FROM states WHERE chat_id=?. -/
def deleteState (db : DB) (chat : Int) : DB :=
  { db with states := db.states.filter (fun r => r.chat_id != chat) }

/-- UPDATE states SET step=?, data=? WHERE chat_id=?. -/
def updateState (db : DB) (chat : Int) (step : String) (d : SessData) : DB :=
  { db with states := db.states.map (fun r =>
      if r.chat_id == chat then { r with step := step, data := d } else r) }

/-- INSERT INTO states (chat_id, flow_type, step, data) VALUES (...). -/
def insertState (db : DB) (chat : Int) (flow step : String) (d : SessData) : DB :=
  { db with states := db.states ++ [⟨chat, flow, step, d⟩] }

/-- INSERT OR REPLACE INTO states ...: the conflicting row is deleted and the
    new row inserted. -/
def insertOrReplaceState (db : DB) (chat : Int) (flow step : String) (d : SessData) : DB :=
  { db with states := db.states.filter (fun r => r.chat_id != chat) ++ [⟨chat, flow, step, d⟩] }

/-- Python truthiness of an optional string argument (None and "" are falsy),
    as tested by upsert_user's `if name:` etc. -/
def truthy : Option String → Bool
  | none => false
  | some s => s ≠ ""

/-- upsert_user (src/app.py lines 176-189): if a row for chat_id exists, update
    exactly the truthy fields; otherwise insert (chat_id, name, whatsapp,
    phone, lang or 'fa'). -/
def upsert_user (db : DB) (chat : Int)
    (name whatsapp phone lang : Option String) : DB :=
  if db.users.any (fun u => u.chat_id == chat) then
    { db with users := db.users.map (fun u =>
        if u.chat_id == chat then
          { u with
            name := if truthy name then name else u.name,
            whatsapp := if truthy whatsapp then whatsapp else u.whatsapp,
            phone := if truthy phone then phone else u.phone,
            lang := if truthy lang then lang.getD u.lang else u.lang }
        else u) }
  else
    { db with users := db.users ++
        [⟨chat, name, whatsapp, phone, if truthy lang then lang.getD "fa" else "fa"⟩] }

/-- SELECT name, whatsapp, phone, lang FROM users WHERE chat_id=? (fetchone). -/
def get_user (db : DB) (chat : Int) : Option UserRow :=
  db.users.find? (fun u => u.chat_id == chat)

/-- SELECT chat_id FROM users. -/
def get_all_users (db : DB) : List Int := db.users.map (fun u => u.chat_id)

/-- INSERT INTO slots (datetime_str) VALUES (?) under the UNIQUE constraint;
    the IntegrityError of a duplicate is swallowed (`except: pass`). -/
def insertSlotIfAbsent (db : DB) (dt : String) : DB :=
  if db.slots.any (fun s => s.datetime_str == dt) then db
  else { db with
         slots := db.slots ++ [⟨db.nextSlotId, dt, false, none, false⟩],
         nextSlotId := db.nextSlotId + 1 }

/-- The 42 datetime strings f"{(now+timedelta(days=day)).strftime('%Y-%m-%d')}
    {hour:02d}:00" for day in 1..7, hour in [10,12,14,16,18,20]. -/
def slotTimes (clock : Clock) : List String :=
  (List.range 7).flatMap (fun d =>
    [10, 12, 14, 16, 18, 20].map (fun h =>
      clock.futureDayStr (d + 1) ++ " " ++ twoDigit h ++ ":00"))

/-- ensure_future_slots (lines 163-174): idempotently insert the rolling
    7-day schedule, then DELETE FROM slots WHERE datetime_str < yesterday. -/
def ensure_future_slots (clock : Clock) (db : DB) : DB :=
  let db2 := (slotTimes clock).foldl insertSlotIfAbsent db
  { db2 with slots := db2.slots.filter (fun s => !strLt s.datetime_str clock.yesterdayStr) }

/-- get_available_slots (lines 199-203): runs ensure_future_slots, then
    SELECT datetime_str FROM slots WHERE is_booked=0 AND datetime_str > now
    ORDER BY datetime_str ASC LIMIT 10. Returns the mutated db. -/
def get_available_slots (clock : Clock) (db : DB) : DB × List String :=
  let db2 := ensure_future_slots clock db
  (db2,
   (sortStrs ((db2.slots.filter
       (fun s => !s.is_booked && strLt clock.nowStr s.datetime_str)).map
       (fun s => s.datetime_str))).take 10)

/-- book_slot_atomic (lines 205-209): UPDATE slots SET is_booked=1, booked_by=?
    WHERE datetime_str=? AND is_booked=0; returns rowcount > 0. -/
def book_slot_atomic (db : DB) (dt : String) (chat : Int) : DB × Bool :=
  let affected := db.slots.countP (fun s => s.datetime_str == dt && !s.is_booked)
  ({ db with slots := db.slots.map (fun s =>
      if s.datetime_str == dt && !s.is_booked then
        { s with is_booked := true, booked_by := some chat }
      else s) },
   decide (affected > 0))

/-- One row of the reminder SELECT: slots.id, slots.datetime_str,
    users.chat_id, users.name, users.lang. -/
structure Reminder where
  slot_id : Nat
  datetime_str : String
  chat_id : Int
  name : Option String
  lang : String
deriving Repr, DecidableEq

/-- get_pending_reminders (lines 211-217): slots JOIN users ON
    slots.booked_by = users.chat_id WHERE is_booked=1 AND reminder_sent=0 AND
    datetime_str LIKE 'tomorrow%'; tomorrow is clock.futureDayStr 1. -/
def get_pending_reminders (clock : Clock) (db : DB) : List Reminder :=
  (db.slots.filter (fun s =>
      s.is_booked && !s.reminder_sent &&
        sqlLike (clock.futureDayStr 1 ++ "%") s.datetime_str)).flatMap
    (fun s => (db.users.filter (fun u => s.booked_by == some u.chat_id)).map
      (fun u => ⟨s.id, s.datetime_str, u.chat_id, u.name, u.lang⟩))

/-- mark_reminder_as_sent (lines 219-222):
    UPDATE slots SET reminder_sent=1 WHERE id=?. -/
def mark_reminder_as_sent (db : DB) (sid : Nat) : DB :=
  { db with slots := db.slots.map (fun s =>
      if s.id == sid then { s with reminder_sent := true } else s) }

/- ### Translations table (lines 36-141); greeting and reminder_msg are the
   str.format templates, modelled as functions of their arguments. -/

/-- One language entry of TRANS. -/
structure Texts where
  buttons : List (List String)
  share_contact : String
  name_prompt : String
  whatsapp_prompt : String
  phone_prompt : String
  use_button_error : String
  reg_complete : String
  greeting : String → String
  services_reply : String
  hours_reply : String
  address_reply : String
  booking_prompt : String
  doctor_prompt : String
  time_prompt : String
  booking_done : String
  photo_analyzing : String
  photo_disclaimer : String
  file_too_large : String
  slot_taken : String
  no_slots : String
  cancelled : String
  reminder_msg : String → String → String → String
  ask_prompt : String
  name_error : String

/-- TRANS["fa"]. -/
def faTexts : Texts where
  buttons := [["خدمات", "ساعات کاری"], ["رزرو نوبت", "آدرس مرکز"], ["سوال یا ارسال عکس"]]
  share_contact := "📱 ارسال شماره تماس (تأیید هویت)"
  name_prompt := "✅ زبان فارسی انتخاب شد.\n\nلطفاً **نام و نام خانوادگی** خود را تایپ کنید:"
  whatsapp_prompt := "لطفاً شماره واتساپ خود را بنویسید (مثال: 0912...):"
  phone_prompt := "برای تکمیل ثبت‌نام، لطفاً روی دکمه زیر بزنید تا شماره شما تأیید شود:"
  use_button_error := "⛔️ لطفاً شماره را تایپ نکنید. حتماً از دکمه «ارسال شماره تماس» در پایین صفحه استفاده کنید."
  reg_complete := "ثبت‌نام با موفقیت انجام شد. خوش آمدید 🌹"
  greeting := fun n => n ++ " عزیز، "
  services_reply := "خدمات کلینیک:\n• ایمپلنت و کاشت دندان\n• ارتودنسی\n• لمینت و کامپوزیت\n• جرمگیری و بلیچینگ\n• عصب‌کشی و ترمیم"
  hours_reply := "ساعات کاری:\nهمه روزه از ساعت ۱۰:۰۰ صبح تا ۲۱:۰۰ شب"
  address_reply := "آدرس:\nدبی، خیابان الوصل، الصفا ۱، پلاک ۶۳۵"
  booking_prompt := "برای چه خدمتی نوبت می‌خواهید؟"
  doctor_prompt := "نام دکتر مدنظر (یا بنویسید \x27فرقی نمی‌کند\x27):"
  time_prompt := "لطفاً یکی از زمان‌های خالی زیر را انتخاب کنید (زمان به وقت دبی):"
  booking_done := "✅ نوبت شما با موفقیت رزرو شد. منتظر دیدار شما هستیم."
  photo_analyzing := "🖼 در حال بررسی تصویر دندان شما توسط هوش مصنوعی... لطفاً صبر کنید."
  photo_disclaimer := "\n\n⚠️ توجه: این تحلیل توسط هوش مصنوعی انجام شده و جایگزین تشخیص پزشک نیست."
  file_too_large := "⚠️ حجم تصویر ارسالی زیاد است. لطفاً تصویر کم‌حجم‌تری بفرستید."
  slot_taken := "متأسفانه این زمان همین الان توسط شخص دیگری رزرو شد. لطفاً زمان دیگری انتخاب کنید."
  no_slots := "در حال حاضر وقت خالی برای ۷ روز آینده موجود نیست. لطفاً با پذیرش تماس بگیرید."
  cancelled := "عملیات لغو شد."
  reminder_msg := fun n d t =>
    n ++ " عزیز، یادآوری: شما فردا (" ++ d ++ ") ساعت " ++ t ++ " نوبت دندانپزشکی دارید."
  ask_prompt := "لطفاً سوال خود را بنویسید یا **عکس دندان** خود را ارسال کنید تا هوش مصنوعی بررسی کند:"
  name_error := "⛔️ لطفاً روی دکمه‌های زبان کلیک نکنید. نام خود را تایپ کنید:"

/-- TRANS["en"]. -/
def enTexts : Texts where
  buttons := [["Services", "Working Hours"], ["Book Appointment", "Location"], ["Question or Photo"]]
  share_contact := "📱 Share Contact"
  name_prompt := "✅ English selected.\n\nPlease type your **Full Name**:"
  whatsapp_prompt := "Please enter your WhatsApp number:"
  phone_prompt := "Please tap the button below to verify your phone number:"
  use_button_error := "⛔️ Please do not type. Use the \x27Share Contact\x27 button below."
  reg_complete := "Registration completed successfully. Welcome!"
  greeting := fun n => "Dear " ++ n ++ ", "
  services_reply := "Our Services:\n• Implants\n• Orthodontics\n• Veneers & Composite\n• Scaling & Whitening\n• Root Canal"
  hours_reply := "Working Hours:\nDaily from 10:00 AM to 09:00 PM"
  address_reply := "Address:\nDubai, Al Wasl Rd, Al Safa 1, Bldg 635"
  booking_prompt := "Which service do you need?"
  doctor_prompt := "Preferred doctor (or type \x27Any\x27):"
  time_prompt := "Please select an available slot (Dubai Time):"
  booking_done := "✅ Appointment confirmed. We look forward to seeing you."
  photo_analyzing := "🖼 Analyzing your dental image with AI... Please wait."
  photo_disclaimer := "\n\n⚠️ Note: This analysis is AI-generated and is NOT a medical diagnosis."
  file_too_large := "⚠️ File is too large. Please send a smaller image."
  slot_taken := "Sorry, this slot was just taken. Please choose another time."
  no_slots := "No slots available for the next 7 days. Please call reception."
  cancelled := "Cancelled."
  reminder_msg := fun n d t =>
    "Dear " ++ n ++ ", Reminder: You have an appointment tomorrow (" ++ d ++ ") at " ++ t ++ "."
  ask_prompt := "Please type your question or **send a dental photo** for AI analysis:"
  name_error := "⛔️ Please do not click the language buttons. Type your name:"

/-- TRANS["ar"]. -/
def arTexts : Texts where
  buttons := [["الخدمات", "ساعات العمل"], ["حجز موعد", "العنوان"], ["سؤال أو صورة"]]
  share_contact := "📱 مشاركة رقم الهاتف"
  name_prompt := "✅ تم اختيار العربية.\n\nالرجاء كتابة **اسمك الكامل**:"
  whatsapp_prompt := "الرجاء إدخال رقم الواتساب:"
  phone_prompt := "الرجاء الضغط على الزر أدناه لتأكيد رقم هاتفك:"
  use_button_error := "⛔️ الرجاء عدم الكتابة. استخدم زر \x27مشاركة رقم الهاتف\x27."
  reg_complete := "تم التسجيل بنجاح. أهلاً بك!"
  greeting := fun n => "عزيزي " ++ n ++ "، "
  services_reply := "خدماتنا:\n• زراعة الأسنان\n• تقويم الأسنان\n• القشور الخزفية\n• تنظيف وتبييض الأسنان\n• علاج الجذور"
  hours_reply := "ساعات العمل:\nيومياً من ١٠ صباحاً حتى ٩ مساءً"
  address_reply := "العنوان:\nدبي، شارع الوصل، الصفا ١، مبنى ٦٣٥"
  booking_prompt := "ما هي الخدمة المطلوبة؟"
  doctor_prompt := "اسم الطبيب المفضل (أو اكتب \x27أي طبيب\x27):"
  time_prompt := "الرجاء اختيار وقت من الأوقات المتاحة (توقيت دبي):"
  booking_done := "✅ تم تأكيد الحجز. ننتظر زيارتكم."
  photo_analyzing := "🖼 جاري تحليل الصورة بالذكاء الاصطناعي..."
  photo_disclaimer := "\n\n⚠️ ملاحظة: هذا تحليل ذكي ولا يعتبر تشخيصاً طبياً."
  file_too_large := "⚠️ الملف كبير جداً."
  slot_taken := "عذراً، تم حجز هذا الموعد للتو. اختر وقتاً آخر."
  no_slots := "لا توجد مواعيد متاحة للأيام السبعة القادمة."
  cancelled := "تم الإلغاء."
  reminder_msg := fun n d t =>
    "عزيزي " ++ n ++ "، تذكير: لديك موعد غداً (" ++ d ++ ") الساعة " ++ t ++ "."
  ask_prompt := "الرجاء كتابة سؤالك أو **إرسال صورة** للأسنان للتحليل:"
  name_error := "⛔️ الرجاء عدم الضغط على الأزرار. اكتب اسمك:"

/-- TRANS["ru"]. -/
def ruTexts : Texts where
  buttons := [["Услуги", "Часы работы"], ["Записаться", "Адрес"], ["Вопрос или Фото"]]
  share_contact := "📱 Отправить контакт"
  name_prompt := "✅ Русский язык выбран.\n\nПожалуйста, введите ваше **полное имя**:"
  whatsapp_prompt := "Введите ваш номер WhatsApp:"
  phone_prompt := "Нажмите кнопку ниже, чтобы подтвердить ваш номер:"
  use_button_error := "⛔️ Пожалуйста, не печатайте. Используйте кнопку «Отправить контакт»."
  reg_complete := "Регистрация успешно завершена. Добро пожаловать!"
  greeting := fun n => "Уважаемый(ая) " ++ n ++ ", "
  services_reply := "Наши услуги:\n• Имплантация\n• Ортодонтия\n• Виниры\n• Чистка и отбеливание\n• Лечение каналов"
  hours_reply := "Часы работы:\nЕжедневно с 10:00 до 21:00"
  address_reply := "Адрес:\nДубай, Аль Васл Роуд, Аль Сафа 1, здание 635"
  booking_prompt := "Какая услуга вам нужна?"
  doctor_prompt := "Предпочитаемый врач (или напишите \x27Любой\x27):"
  time_prompt := "Выберите свободное время (время Дубая):"
  booking_done := "✅ Ваша запись подтверждена."
  photo_analyzing := "🖼 ИИ анализирует ваш снимок... Пожалуйста, подождите."
  photo_disclaimer := "\n\n⚠️ Примечание: Это анализ ИИ, а не медицинский диагноз."
  file_too_large := "⚠️ Файл слишком большой."
  slot_taken := "К сожалению, это время уже занято. Выберите другое."
  no_slots := "Нет свободного времени на ближайшие 7 дней."
  cancelled := "Отменено."
  reminder_msg := fun n d t =>
    "Уважаемый(ая) " ++ n ++ ", напоминание: у вас прием завтра (" ++ d ++ ") в " ++ t ++ "."
  ask_prompt := "Пожалуйста, напишите вопрос или **отправьте фото** зубов:"
  name_error := "⛔️ Не нажимайте кнопки. Введите имя:"

/-- TRANS.get(lang, TRANS["en"]): the four keys, any other language falls back
    to English. -/
def TRANSget (l : String) : Texts :=
  if l = "fa" then faTexts
  else if l = "en" then enTexts
  else if l = "ar" then arTexts
  else if l = "ru" then ruTexts
  else enTexts

/- ### Keyboards (lines 279-305) -/

/-- language_keyboard rows. -/
def language_keyboard : List (List String) :=
  [["فارسی / Farsi", "English"], ["العربية / Arabic", "Русский / Russian"]]

/-- contact_keyboard lang: the one share-contact button. -/
def contact_keyboard (lang : String) : List (List String) :=
  [[(TRANSget lang).share_contact]]

/-- main_keyboard lang. -/
def main_keyboard (lang : String) : List (List String) :=
  (TRANSget lang).buttons

/-- Rows of at most two labels, as built by slots_keyboard's loop. -/
def chunkPairs : List String → List (List String)
  | a :: b :: rest => [a, b] :: chunkPairs rest
  | [a] => [[a]]
  | [] => []

/-- slots_keyboard (lines 290-298): the year prefix s[5:] is stripped from
    each slot label; a trailing Cancel row is appended. -/
def slots_keyboard (slots : List String) : List (List String) :=
  chunkPairs (slots.map (fun s => strDropChars s 5)) ++ [["Cancel"]]

/-- get_all_menu_buttons (lines 300-305): every main-menu button label of all
    four languages (membership is all that is used of the Python set). -/
def get_all_menu_buttons : List String :=
  (["fa", "en", "ar", "ru"].map (fun l => (TRANSget l).buttons.flatMap id)).flatMap id

/-- The hard-coded language-selector labels guarded against at the name step
    (line 441). -/
def languageButtonLabels : List String :=
  ["English", "فارسی / Farsi", "العربية / Arabic", "Русский / Russian"]

/- ### External collaborators as explicit inputs -/

/-- Outcome of one httpx POST to the Gemini endpoint. -/
inductive HttpOutcome where
  | ok (text : String)
  | statusError (code : Nat) (body : String)
  | connError (err : String)
deriving Repr, DecidableEq

/-- The external inputs one webhook invocation can consume: the text / vision
    completion outcomes, the getFile result (file_path when present) and a
    failure of the image download, if any. -/
structure Oracle where
  textOutcome : HttpOutcome := .ok ""
  visionOutcome : HttpOutcome := .ok ""
  fileInfo : Option String := none
  imageFetchError : Option String := none
deriving Repr, DecidableEq

/-- call_gemini_api (lines 241-255): on HTTP success the candidate text; on an
    HTTP status error the string "❌ AI Error {code}: {body}"; on any other
    exception "❌ AI Connection Error: {err}". The error strings are RETURNED
    as the reply (debug behaviour), not replaced by an apology. -/
def call_gemini_api : HttpOutcome → String
  | .ok t => t
  | .statusError code body => "❌ AI Error " ++ pyStrNat code ++ ": " ++ body
  | .connError err => "❌ AI Connection Error: " ++ err

/-- analyze_image_with_gemini (lines 257-271): a failing image download is
    caught into "Image Error: {e}", otherwise the Gemini vision call result
    (itself via call_gemini_api). -/
def analyze_image_with_gemini (o : Oracle) : String :=
  match o.imageFetchError with
  | some e => "Image Error: " ++ e
  | none => call_gemini_api o.visionOutcome

/- ### Inbound message and outbound effects -/

/-- The largest photo variant: msg["photo"][-1]. -/
structure Photo where
  file_size : Nat
  file_id : String
deriving Repr, DecidableEq

/-- msg["contact"]; user_id is absent for contacts not linked to a Telegram
    account. -/
structure Contact where
  phone_number : String
  user_id : Option Int
deriving Repr, DecidableEq

/-- One inbound Telegram message, reduced to the fields the handler reads. -/
structure Msg where
  text : Option String := none
  caption : Option String := none
  photo : Option Photo := none
  contact : Option Contact := none
deriving Repr, DecidableEq

/-- The observable outbound actions of one webhook invocation: Telegram
    sendMessage calls (with the reply keyboard rows, [] when none), the Gemini
    text / vision requests and the getFile request. -/
inductive Effect where
  | send (chat : Int) (text : String) (keyboard : List (List String))
  | aiTextCall (question : String) (lang : String)
  | aiVisionCall (caption : String) (lang : String)
  | getFileCall (fileId : String)
deriving Repr, DecidableEq

/-- True for the two Gemini completion effects. -/
def Effect.isAi : Effect → Bool
  | .aiTextCall _ _ => true
  | .aiVisionCall _ _ => true
  | _ => false

/-- The environment configuration the handler reads: ADMIN_CHAT_ID. -/
structure Config where
  adminChatId : Option String := none
deriving Repr, DecidableEq

/-- Python str(ADMIN_CHAT_ID): "None" when the variable is unset. -/
def adminStr (cfg : Config) : String :=
  match cfg.adminChatId with
  | some a => a
  | none => "None"

/- ### Webhook handler (lines 330-533), split along its comment banners -/

/-- The step field of the loaded state, "" when no row exists. -/
def optStep : Option StateRow → String
  | some s => s.step
  | none => ""

/-- The flow_type field of the loaded state, "" when no row exists. -/
def optFlow : Option StateRow → String
  | some s => s.flow_type
  | none => ""

/-- The scratch data of the loaded state, empty when no row exists. -/
def optData : Option StateRow → SessData
  | some s => s.data
  | none => {}

/-- The cancel test of the booking flow (line 469):
    "cancel" in text.lower() or "لغو" in text. -/
def isCancelText (text : String) : Bool :=
  strContains (pyLower text) "cancel" || strContains text "لغو"

/-- Language detection of the registration lang step (lines 419-424). -/
def detect_language (text : String) : Option String :=
  let t_l := pyLower text
  if strContains text "فارسی" then some "fa"
  else if strContains t_l "english" then some "en"
  else if strContains t_l "arabic" || strContains text "العربية" then some "ar"
  else if strContains t_l "russian" || strContains text "русский" then some "ru"
  else none

/-- IMAGE branch (lines 366-383). An unregistered sender is told to register
    and the image is discarded; otherwise the image is analyzed via the
    oracle. -/
def handlePhoto (db : DB) (chat : Int) (o : Oracle) (m : Msg)
    (userRow : Option UserRow) (lang : String) : DB × List Effect :=
  let texts := TRANSget lang
  match userRow with
  | none => (db, [.send chat "Please register first / لطفاً ثبت‌نام کنید" []])
  | some u =>
    let ph := (m.photo).getD ⟨0, ""⟩
    if ph.file_size > 19 * 1024 * 1024 then
      (db, [.send chat texts.file_too_large []])
    else
      match o.fileInfo with
      | some _ =>
        let res := analyze_image_with_gemini o
        let visEff : List Effect :=
          match o.imageFetchError with
          | some _ => []
          | none => [.aiVisionCall ((m.caption).getD "") lang]
        (db,
         [.send chat texts.photo_analyzing [], .getFileCall ph.file_id] ++ visEff ++
           [.send chat
             (texts.greeting (pyStr u.name) ++ "\n🦷 **AI:**\n" ++ res ++ texts.photo_disclaimer)
             (main_keyboard lang)])
      | none =>
        (db,
         [.send chat texts.photo_analyzing [], .getFileCall ph.file_id,
          .send chat "❌ Failed to get file from Telegram." []])

/-- CONTACT VERIFICATION branch (lines 386-402): only a contact whose user_id
    equals the chat id completes registration (Profile upsert with the shared
    phone_number, session deleted); a foreign contact or any non-contact
    message re-prompts and leaves everything unchanged. data["lang"] is read
    with the English fallback of TRANS.get (the flow always sets lang before
    reaching this step). -/
def handleContact (db : DB) (chat : Int) (m : Msg) (d : SessData) (lang : String) :
    DB × List Effect :=
  match m.contact with
  | some c =>
    if c.user_id != some chat then
      (db, [.send chat "Error: Not your contact." (contact_keyboard lang)])
    else
      let db2 := deleteState (upsert_user db chat d.name d.whatsapp (some c.phone_number) d.lang) chat
      let dl := (d.lang).getD ""
      (db2, [.send chat (TRANSget dl).reg_complete (main_keyboard dl)])
  | none =>
    let dl := (d.lang).getD ""
    (db, [.send chat (TRANSget dl).use_button_error (contact_keyboard dl)])

/-- REGISTRATION FLOW steps lang / name / whatsapp (lines 414-458); the caller
    dispatches here exactly for these steps. -/
def handleRegStep (db : DB) (chat : Int) (text : String) (step : String) (d : SessData) :
    DB × List Effect :=
  if step = "lang" then
    match detect_language text with
    | none => (db, [.send chat "Please select from buttons." language_keyboard])
    | some sel =>
      let db2 := updateState (upsert_user db chat none none none (some sel)) chat "name"
        { lang := some sel }
      (db2, [.send chat (TRANSget sel).name_prompt []])
  else if step = "name" then
    if languageButtonLabels.contains (pyStrip text) then
      (db, [.send chat (TRANSget ((d.lang).getD "")).name_error []])
    else
      let d2 := { d with name := some text }
      (updateState db chat "whatsapp" d2,
       [.send chat (TRANSget ((d.lang).getD "")).whatsapp_prompt []])
  else
    let d2 := { d with whatsapp := some text }
    (updateState db chat "phone" d2,
     [.send chat (TRANSget ((d.lang).getD "")).phone_prompt (contact_keyboard ((d.lang).getD ""))])

/-- Admin mirror of a successful booking (lines 501-503): sent only when
    ADMIN_CHAT_ID is set and parses as an int (int() failure is swallowed). -/
def adminNotify (cfg : Config) (userName userWhatsapp : Option String) (fullSlot : String) :
    List Effect :=
  match cfg.adminChatId with
  | none => []
  | some a =>
    if a = "" then []
    else
      match a.toInt? with
      | some aid =>
        [.send aid
          ("📅 Booking:\nName: " ++ pyStr userName ++ "\nWA: " ++ pyStr userWhatsapp ++
            "\nTime: " ++ fullSlot) []]
      | none => []

/-- SELECT datetime_str FROM slots WHERE datetime_str LIKE '%{clicked}' AND
    is_booked=0 (fetchone, table scan order) — line 495. -/
def resolve_slot (db : DB) (clicked : String) : Option String :=
  (db.slots.find? (fun s => sqlLike ("%" ++ clicked) s.datetime_str && !s.is_booked)).map
    (fun s => s.datetime_str)

/-- The SelectingSlot step (lines 491-507) with its one concurrency window made
    explicit: dbSel is the database snapshot read by the availability SELECT of
    line 495 and dbBook the snapshot the UPDATE of book_slot_atomic commits
    against; a concurrent webhook delivery may commit between the two
    statements, so dbBook may differ from dbSel. The sequential handler (and
    the webhook below) instantiates dbBook := dbSel. -/
def slotStepRace (cfg : Config) (clock : Clock) (dbSel dbBook : DB) (chat : Int)
    (text lang : String) (userName userWhatsapp : Option String) : DB × List Effect :=
  let texts := TRANSget lang
  match resolve_slot dbSel text with
  | some fullSlot =>
    let bk := book_slot_atomic dbBook fullSlot chat
    if bk.2 then
      (deleteState bk.1 chat,
       [.send chat texts.booking_done (main_keyboard lang)] ++
         adminNotify cfg userName userWhatsapp fullSlot)
    else
      let av := get_available_slots clock bk.1
      (av.1, [.send chat texts.slot_taken (slots_keyboard av.2)])
  | none =>
    let av := get_available_slots clock dbBook
    (av.1, [.send chat texts.slot_taken (slots_keyboard av.2)])

/-- BOOKING FLOW (lines 465-507); the caller dispatches here for flow_type
    "booking" when the text is a cancel text or the step is service / doctor /
    slot, so the final branch is the slot step. -/
def handleBookingStep (cfg : Config) (clock : Clock) (db : DB) (chat : Int)
    (text lang : String) (userName userWhatsapp : Option String) (step : String)
    (d : SessData) : DB × List Effect :=
  let texts := TRANSget lang
  if isCancelText text then
    (deleteState db chat, [.send chat texts.cancelled (main_keyboard lang)])
  else if step = "service" then
    (updateState db chat "doctor" { d with service := some text },
     [.send chat texts.doctor_prompt []])
  else if step = "doctor" then
    let d2 := { d with doctor := some text }
    let av := get_available_slots clock db
    if av.2.isEmpty then
      (deleteState av.1 chat, [.send chat texts.no_slots (main_keyboard lang)])
    else
      (updateState av.1 chat "slot" d2,
       [.send chat texts.time_prompt (slots_keyboard av.2)])
  else
    slotStepRace cfg clock db db chat text lang userName userWhatsapp

/-- MAIN MENU branch (lines 509-525); the caller guarantees text is one of the
    five buttons of the user's language. -/
def handleMenu (db : DB) (chat : Int) (text lang : String) (userName : Option String) :
    DB × List Effect :=
  let texts := TRANSget lang
  let flat := texts.buttons.flatMap id
  let idx := flat.indexOf text
  let greet := texts.greeting (pyStr userName)
  if idx = 0 then
    (db, [.send chat (greet ++ "\n" ++ texts.services_reply) (main_keyboard lang)])
  else if idx = 1 then
    (db, [.send chat (greet ++ "\n" ++ texts.hours_reply) (main_keyboard lang)])
  else if idx = 2 then
    (insertOrReplaceState db chat "booking" "service" {},
     [.send chat (greet ++ texts.booking_prompt) []])
  else if idx = 3 then
    (db, [.send chat (greet ++ "\n" ++ texts.address_reply) (main_keyboard lang)])
  else if idx = 4 then
    (db, [.send chat texts.ask_prompt (main_keyboard lang)])
  else (db, [])

/-- The /webhook body for a message carrying a chat id (lines 337-533). The
    branches appear in source order: admin broadcast, state/user load, the
    global menu-button interceptor (which deletes any active session), image,
    contact verification, /start, registration flow, the unregistered-user
    gate, booking flow, main menu, AI chat. -/
def webhookChat (cfg : Config) (clock : Clock) (o : Oracle) (db : DB) (chat : Int)
    (m : Msg) : DB × List Effect :=
  let text := pyStrip ((m.text).getD "")
  if pyStrInt chat == adminStr cfg && pyStartsWith text "/broadcast" then
    let body := pyStrip (pyReplace text "/broadcast" "")
    let us := get_all_users db
    (db,
     us.map (fun u => Effect.send u ("📢 " ++ body) []) ++
       [Effect.send chat ("Sent to " ++ pyStrNat us.length ++ " users.") []])
  else
    let userRow := get_user db chat
    let userName : Option String :=
      match userRow with
      | some u => u.name
      | none => none
    let lang :=
      match userRow with
      | some u => u.lang
      | none => "en"
    let texts := TRANSget lang
    let db1 := if get_all_menu_buttons.contains text then deleteState db chat else db
    let st := getState db1 chat
    if (m.photo).isSome then
      handlePhoto db1 chat o m userRow lang
    else if optStep st == "phone" then
      handleContact db1 chat m (optData st) lang
    else if text == "/start" then
      (insertState (deleteState db1 chat) chat "reg" "lang" {},
       [.send chat "Select Language / زبان را انتخاب کنید:" language_keyboard])
    else if optFlow st == "reg" && ["lang", "name", "whatsapp"].contains (optStep st) then
      handleRegStep db1 chat text (optStep st) (optData st)
    else if userRow.isNone then
      (db1, [.send chat "Type /start to register." []])
    else if optFlow st == "booking" &&
        (isCancelText text || ["service", "doctor", "slot"].contains (optStep st)) then
      handleBookingStep cfg clock db1 chat text lang userName
        (match userRow with
         | some u => u.whatsapp
         | none => none)
        (optStep st) (optData st)
    else if (texts.buttons.flatMap id).contains text then
      handleMenu db1 chat text lang userName
    else if userRow.isSome then
      (db1,
       [.aiTextCall text lang,
        .send chat (texts.greeting (pyStr userName) ++ call_gemini_api o.textOutcome)
          (main_keyboard lang)])
    else (db1, [])

/-- The /webhook endpoint: a message without a chat id is an idempotent
    no-op. -/
def webhook (cfg : Config) (clock : Clock) (o : Oracle) (db : DB) (chatId : Option Int)
    (m : Msg) : DB × List Effect :=
  match chatId with
  | none => (db, [])
  | some chat => webhookChat cfg clock o db chat m

/- ### Reminder scanner endpoint (lines 316-328) -/

/-- The interleaved observable actions of /trigger-reminders: a reminder send
    and the database mark that follows it. -/
inductive TrigEvent where
  | send (chat : Int) (text : String)
  | markSent (slot_id : Nat)
deriving Repr, DecidableEq

/-- The reminder message of one pending row: date and time parts split from
    datetime_str at the space (lines 322-324). -/
def reminderText (r : Reminder) : String :=
  let texts := TRANSget r.lang
  "⏰ " ++ texts.reminder_msg (pyStr r.name) ((pySplitSpace r.datetime_str).getD 0 "")
    ((pySplitSpace r.datetime_str).getD 1 "")

/-- trigger_reminders: scan once, then for each pending row send the reminder
    and only then mark it sent; returns the final database, the event trace and
    the sent count. -/
def trigger_reminders (clock : Clock) (db : DB) : DB × List TrigEvent × Nat :=
  (get_pending_reminders clock db).foldl
    (fun acc r =>
      (mark_reminder_as_sent acc.1 r.slot_id,
       acc.2.1 ++ [.send r.chat_id (reminderText r), .markSent r.slot_id],
       acc.2.2 + 1))
    (db, [], 0)

/- ### Shared lemmas -/

/-- Mapping a function that fixes every element of a list is the identity. -/
theorem map_id_of_forall {α : Type} (l : List α) (f : α → α) (h : ∀ a ∈ l, f a = a) :
    l.map f = l := by
  induction l with
  | nil => rfl
  | cons a l ih =>
    simp only [List.map_cons, h a (by simp), List.cons.injEq, true_and]
    exact ih (fun x hx => h x (by simp [hx]))

/-- After DELETE FROM states WHERE chat_id=?, no state row for chat remains. -/
theorem getState_deleteState (db : DB) (chat : Int) :
    getState (deleteState db chat) chat = none := by
  unfold getState deleteState
  rw [List.find?_eq_none]
  intro x hx
  have hx2 := (List.mem_filter.mp hx).2
  simp only [bne_iff_ne, ne_eq, decide_eq_true_eq] at hx2
  simpa using hx2

/-- Deleting a chat's state twice is the same as once. -/
theorem deleteState_idem (db : DB) (chat : Int) :
    deleteState (deleteState db chat) chat = deleteState db chat := by
  unfold deleteState
  simp [List.filter_filter]

/-- upsert_user only touches the users table. -/
theorem upsert_user_states (db : DB) (chat : Int) (n w p l : Option String) :
    (upsert_user db chat n w p l).states = db.states := by
  unfold upsert_user
  split <;> rfl

/-- upsert_user does not touch the slots table. -/
theorem upsert_user_slots (db : DB) (chat : Int) (n w p l : Option String) :
    (upsert_user db chat n w p l).slots = db.slots := by
  unfold upsert_user
  split <;> rfl

/-- After an upsert carrying a non-empty phone, every users row of this chat id
    holds exactly that phone. -/
theorem upsert_user_phone (db : DB) (chat : Int) (n w l : Option String)
    (pn : String) (hpn : pn ≠ "") :
    ∀ u ∈ (upsert_user db chat n w (some pn) l).users, u.chat_id = chat →
      u.phone = some pn := by
  intro u hu hchat
  have htr : truthy (some pn) = true := by simpa [truthy] using hpn
  unfold upsert_user at hu
  split at hu
  case isTrue hex =>
    simp only [List.mem_map] at hu
    obtain ⟨u0, hmem, hu0⟩ := hu
    by_cases h0 : u0.chat_id = chat
    · rw [← hu0]
      simp [h0, htr]
    · rw [← hu0] at hchat
      simp [h0] at hchat
  case isFalse hex =>
    simp only [List.mem_append, List.mem_singleton] at hu
    rcases hu with hu | hu
    · exact absurd (by simpa [List.any_eq_true] using ⟨u, hu, by simpa using hchat⟩) hex
    · rw [hu]

/-- After an upsert carrying a (necessarily non-empty) language code, every
    users row of this chat id carries that language. -/
theorem upsert_user_lang (db : DB) (chat : Int) (n w p : Option String)
    (sel : String) (hsel : sel ≠ "") :
    ∀ u ∈ (upsert_user db chat n w p (some sel)).users, u.chat_id = chat →
      u.lang = sel := by
  intro u hu hchat
  have htr : truthy (some sel) = true := by simpa [truthy] using hsel
  unfold upsert_user at hu
  split at hu
  case isTrue hex =>
    simp only [List.mem_map] at hu
    obtain ⟨u0, hmem, hu0⟩ := hu
    by_cases h0 : u0.chat_id = chat
    · rw [← hu0]
      simp [h0, htr]
    · rw [← hu0] at hchat
      simp [h0] at hchat
  case isFalse hex =>
    simp only [List.mem_append, List.mem_singleton] at hu
    rcases hu with hu | hu
    · exact absurd (by simpa [List.any_eq_true] using ⟨u, hu, by simpa using hchat⟩) hex
    · rw [hu]
      simp [htr]

/-- An upsert into an empty-or-missing chat makes the user row exist. -/
theorem upsert_user_exists (db : DB) (chat : Int) (n w p l : Option String) :
    (get_user (upsert_user db chat n w p l) chat).isSome = true := by
  unfold get_user upsert_user
  split
  case isTrue hex =>
    rw [List.find?_isSome]
    simp only [List.any_eq_true] at hex
    obtain ⟨u0, hmem, h0⟩ := hex
    refine ⟨_, List.mem_map_of_mem _ hmem, ?_⟩
    simp only [beq_iff_eq] at h0
    simp [h0]
  case isFalse hex =>
    rw [List.find?_isSome]
    exact ⟨⟨chat, n, w, p, if truthy l then l.getD "fa" else "fa"⟩, by simp, by simp⟩

/-- UPDATE of a state row: the looked-up row after updateState. -/
theorem getState_updateState (db : DB) (chat : Int) (stp : String) (d : SessData) :
    getState (updateState db chat stp d) chat =
      (getState db chat).map (fun r => { r with step := stp, data := d }) := by
  unfold getState updateState
  simp only
  induction db.states with
  | nil => rfl
  | cons r rs ih =>
    simp only [List.map_cons]
    by_cases h : r.chat_id = chat
    · rw [List.find?_cons_of_pos _ (by simp [h]), List.find?_cons_of_pos _ (by simp [h])]
      simp [h]
    · rw [List.find?_cons_of_neg _ (by simp [h]), List.find?_cons_of_neg _ (by simp [h])]
      exact ih

/- ### C1 — atomicity of book_slot_atomic -/

/-- C1: book_slot_atomic(slot_time, conversation_id) returns true iff a slot
    row with that slot_time existed with is_booked=0 immediately before the
    call; in that case such rows become is_booked=1 with
    booked_by=conversation_id while all other rows are untouched; when it
    returns false the whole table is unchanged; after any first attempt on a
    slot_time a second attempt on it always returns false, so of two claim
    attempts on the same slot_time at most one returns true; and a row that is
    already booked is never modified, so a booked slot's holder is never
    overwritten by a second distinct claimant. -/
theorem C1_book_slot_atomic_spec (db : DB) (dt : String) (c c2 : Int) :
    ((book_slot_atomic db dt c).2 = true ↔
      ∃ s ∈ db.slots, s.datetime_str = dt ∧ s.is_booked = false)
  ∧ (∀ (i : Nat) (s : SlotRow), db.slots[i]? = some s → s.datetime_str = dt → s.is_booked = false →
      (book_slot_atomic db dt c).1.slots[i]? =
        some { s with is_booked := true, booked_by := some c })
  ∧ (∀ (i : Nat) (s : SlotRow), db.slots[i]? = some s → (s.datetime_str ≠ dt ∨ s.is_booked = true) →
      (book_slot_atomic db dt c).1.slots[i]? = some s)
  ∧ ((book_slot_atomic db dt c).2 = false → (book_slot_atomic db dt c).1 = db)
  ∧ ((book_slot_atomic (book_slot_atomic db dt c).1 dt c2).2 = false)
  ∧ (∀ (i : Nat) (s : SlotRow), db.slots[i]? = some s → s.is_booked = true →
      (book_slot_atomic db dt c).1.slots[i]? = some s) := by
  refine ⟨?_, ?_, ?_, ?_, ?_, ?_⟩
  · simp only [book_slot_atomic, decide_eq_true_eq]
    rw [gt_iff_lt, List.countP_pos_iff]
    constructor
    · rintro ⟨s, hs, hp⟩
      simp only [Bool.and_eq_true, beq_iff_eq, Bool.not_eq_true'] at hp
      exact ⟨s, hs, hp.1, hp.2⟩
    · rintro ⟨s, hs, h1, h2⟩
      exact ⟨s, hs, by simp [h1, h2]⟩
  · intro i s hi h1 h2
    simp only [book_slot_atomic, List.getElem?_map, hi, Option.map_some']
    simp [h1, h2]
  · intro i s hi h
    simp only [book_slot_atomic, List.getElem?_map, hi, Option.map_some']
    rcases h with h | h
    · simp [h]
    · simp [h]
  · intro hfalse
    have h0 : List.countP (fun s : SlotRow => s.datetime_str == dt && !s.is_booked)
        db.slots = 0 := by
      simp only [book_slot_atomic, decide_eq_false_iff_not] at hfalse
      omega
    have hmap := map_id_of_forall db.slots
      (fun s => if s.datetime_str == dt && !s.is_booked then
        { s with is_booked := true, booked_by := some c } else s)
      (fun s hs => by
        have hns := List.countP_eq_zero.mp h0 s hs
        simp [hns])
    simp only [book_slot_atomic]
    cases db
    simp_all
  · have hall : ∀ s2 ∈ (book_slot_atomic db dt c).1.slots,
        ¬((fun s : SlotRow => s.datetime_str == dt && !s.is_booked) s2 = true) := by
      intro s2 hs2
      simp only [book_slot_atomic, List.mem_map] at hs2
      obtain ⟨s, hs, rfl⟩ := hs2
      by_cases hp : (s.datetime_str == dt && !s.is_booked) = true
      · simp [hp]
      · simp only [if_neg hp]
        simpa using hp
    have h0 := List.countP_eq_zero.mpr hall
    simp only [book_slot_atomic] at h0 ⊢
    rw [decide_eq_false_iff_not]
    omega
  · intro i s hi hb
    simp only [book_slot_atomic, List.getElem?_map, hi, Option.map_some']
    simp [hb]

/-- Witness for C1 at a concrete table: the second claim on the same slot
    fails after a first one. -/
theorem C1_witness :
    (book_slot_atomic
      (book_slot_atomic ⟨[], [], [⟨0, "2026-01-01 10:00", false, none, false⟩], 1⟩
        "2026-01-01 10:00" 1).1 "2026-01-01 10:00" 2).2 = false :=
  (C1_book_slot_atomic_spec ⟨[], [], [⟨0, "2026-01-01 10:00", false, none, false⟩], 1⟩
    "2026-01-01 10:00" 1 2).2.2.2.2.1

/- ### C9 — reminder scanner -/

/-- Membership characterization of the reminder JOIN: exactly the booked,
    not-yet-reminded tomorrow slots whose booker has a users row. -/
theorem mem_get_pending_reminders (clock : Clock) (db : DB) (r : Reminder) :
    r ∈ get_pending_reminders clock db ↔
      ∃ s ∈ db.slots, ∃ u ∈ db.users, s.is_booked = true ∧ s.reminder_sent = false ∧
        sqlLike (clock.futureDayStr 1 ++ "%") s.datetime_str = true ∧
        s.booked_by = some u.chat_id ∧
        r = ⟨s.id, s.datetime_str, u.chat_id, u.name, u.lang⟩ := by
  unfold get_pending_reminders
  simp only [List.mem_flatMap, List.mem_filter, List.mem_map, Bool.and_eq_true,
    Bool.not_eq_true', beq_iff_eq]
  constructor
  · rintro ⟨s, ⟨hs, ⟨hb, hrs⟩, hlike⟩, u, ⟨hu, hbook⟩, hr⟩
    exact ⟨s, hs, u, hu, hb, hrs, hlike, hbook, hr.symm⟩
  · rintro ⟨s, hs, u, hu, hb, hrs, hlike, hbook, hr⟩
    exact ⟨s, ⟨hs, ⟨hb, hrs⟩, hlike⟩, u, ⟨hu, hbook⟩, hr.symm⟩

/-- Sequentially applying mark_reminder_as_sent for a list of slot ids. -/
def applyMarks (db : DB) (ids : List Nat) : DB :=
  ids.foldl mark_reminder_as_sent db

/-- applyMarks does not touch the users table. -/
theorem applyMarks_users (db : DB) (ids : List Nat) :
    (applyMarks db ids).users = db.users := by
  induction ids generalizing db with
  | nil => rfl
  | cons i ids ih =>
    unfold applyMarks at ih ⊢
    rw [List.foldl_cons, ih]
    rfl

/-- applyMarks does not touch the states table. -/
theorem applyMarks_states (db : DB) (ids : List Nat) :
    (applyMarks db ids).states = db.states := by
  induction ids generalizing db with
  | nil => rfl
  | cons i ids ih =>
    unfold applyMarks at ih ⊢
    rw [List.foldl_cons, ih]
    rfl

/-- The slots table after applyMarks: reminder_sent is set on exactly the rows
    whose id occurs in the list. -/
theorem applyMarks_slots (db : DB) (ids : List Nat) :
    (applyMarks db ids).slots = db.slots.map (fun s =>
      if s.id ∈ ids then { s with reminder_sent := true } else s) := by
  induction ids generalizing db with
  | nil =>
    simp only [applyMarks, List.foldl_nil, List.not_mem_nil, if_false]
    exact (map_id_of_forall _ _ (fun s _ => rfl)).symm
  | cons i ids ih =>
    unfold applyMarks at ih ⊢
    rw [List.foldl_cons, ih]
    unfold mark_reminder_as_sent
    simp only [List.map_map]
    apply List.map_congr_left
    intro s _
    simp only [Function.comp_apply]
    by_cases h1 : s.id = i
    · simp [h1]
    · by_cases h2 : s.id ∈ ids <;> simp [h1, h2]

/-- The fold of trigger_reminders, split into its three components. -/
theorem trigger_fold (rs : List Reminder) (db : DB) (evts : List TrigEvent) (n : Nat) :
    rs.foldl (fun acc r =>
        (mark_reminder_as_sent acc.1 r.slot_id,
         acc.2.1 ++ [.send r.chat_id (reminderText r), .markSent r.slot_id],
         acc.2.2 + 1)) (db, evts, n) =
      (applyMarks db (rs.map (fun r => r.slot_id)),
       evts ++ rs.flatMap (fun r => [.send r.chat_id (reminderText r), .markSent r.slot_id]),
       n + rs.length) := by
  induction rs generalizing db evts n with
  | nil => simp [applyMarks]
  | cons r rs ih =>
    rw [List.foldl_cons, ih]
    simp only [List.map_cons, List.flatMap_cons, applyMarks, List.foldl_cons,
      List.length_cons, Prod.mk.injEq]
    exact ⟨trivial, by simp, by omega⟩

set_option maxRecDepth 8000
set_option maxHeartbeats 1000000

/-- C9: get_pending_reminders returns exactly the booked slots dated tomorrow
    whose reminder flag is unset and whose booker has a users row; running
    /trigger-reminders marks exactly the scanned rows (each mark event placed
    right after its send event in the trace), after which a re-scan returns
    nothing, so a marked booking is never re-notified; the reported count is
    the number of scanned rows. -/
theorem C9_reminders_exactly_once (clock : Clock) (db : DB) :
    (∀ r : Reminder, r ∈ get_pending_reminders clock db ↔
      ∃ s ∈ db.slots, ∃ u ∈ db.users, s.is_booked = true ∧ s.reminder_sent = false ∧
        sqlLike (clock.futureDayStr 1 ++ "%") s.datetime_str = true ∧
        s.booked_by = some u.chat_id ∧
        r = ⟨s.id, s.datetime_str, u.chat_id, u.name, u.lang⟩)
  ∧ get_pending_reminders clock (trigger_reminders clock db).1 = []
  ∧ (trigger_reminders clock db).2.1 = (get_pending_reminders clock db).flatMap
      (fun r => [.send r.chat_id (reminderText r), .markSent r.slot_id])
  ∧ (trigger_reminders clock db).2.2 = (get_pending_reminders clock db).length := by
  have hdb : (trigger_reminders clock db).1 =
      applyMarks db ((get_pending_reminders clock db).map (fun r => r.slot_id)) := by
    unfold trigger_reminders
    rw [trigger_fold]
  refine ⟨fun r => mem_get_pending_reminders clock db r, ?_, ?_, ?_⟩
  · rw [List.eq_nil_iff_forall_not_mem]
    intro r hr
    rw [mem_get_pending_reminders] at hr
    obtain ⟨s2, hs2, u, hu, hb, hrs, hlike, hbook, hreq⟩ := hr
    rw [hdb] at hs2 hu
    rw [applyMarks_users] at hu
    rw [applyMarks_slots] at hs2
    simp only [List.mem_map] at hs2
    obtain ⟨s, hs, hseq⟩ := hs2
    by_cases hmem : ∃ a ∈ get_pending_reminders clock db, a.slot_id = s.id
    · rw [if_pos hmem] at hseq
      rw [← hseq] at hrs
      simp at hrs
    · rw [if_neg hmem] at hseq
      subst hseq
      have hpend : (⟨s.id, s.datetime_str, u.chat_id, u.name, u.lang⟩ : Reminder) ∈
          get_pending_reminders clock db :=
        (mem_get_pending_reminders clock db _).mpr ⟨s, hs, u, hu, hb, hrs, hlike, hbook, rfl⟩
      exact hmem ⟨_, hpend, rfl⟩
  · unfold trigger_reminders
    rw [trigger_fold]
    simp
  · unfold trigger_reminders
    rw [trigger_fold]
    simp

/- Concrete inputs shared by the evaluation theorems below. -/

/-- Concrete clock: now is 2026-03-05 15:00 Dubai time, so tomorrow is
    2026-03-06 and the 7-day horizon is 2026-03-06 .. 2026-03-12. -/
def exClock : Clock :=
  ⟨"2026-03-05 15:00",
   fun d => "2026-03-" ++ (if 5 + d < 10 then "0" ++ pyStrNat (5 + d) else pyStrNat (5 + d)),
   "2026-03-04"⟩

/-- Concrete configuration without ADMIN_CHAT_ID. -/
def exCfg : Config := {}

/-- Concrete oracle whose calls all succeed trivially. -/
def exOracle : Oracle := {}

/-- Witness for C9: at a concrete database with one booked, unreminded
    tomorrow slot whose booker is registered, the scan reports exactly that
    row. -/
theorem C9_witness :
    (⟨0, "2026-03-06 10:00", 5, some "Ali", "en"⟩ : Reminder) ∈
      get_pending_reminders exClock
        ⟨[⟨5, some "Ali", some "0912", some "+100", "en"⟩], [],
         [⟨0, "2026-03-06 10:00", true, some 5, false⟩], 1⟩ :=
  ((C9_reminders_exactly_once exClock
      ⟨[⟨5, some "Ali", some "0912", some "+100", "en"⟩], [],
       [⟨0, "2026-03-06 10:00", true, some 5, false⟩], 1⟩).1 _).mpr
    ⟨⟨0, "2026-03-06 10:00", true, some 5, false⟩, by decide,
     ⟨5, some "Ali", some "0912", some "+100", "en"⟩, by decide,
     rfl, rfl, by decide, rfl, rfl⟩

/- ### C10 — global menu-button interceptor -/

/-- No main-menu button label starts with /broadcast. -/
theorem menu_not_broadcast (t : String) (h : t ∈ get_all_menu_buttons) :
    pyStartsWith t "/broadcast" = false := by
  have hall : get_all_menu_buttons.all (fun x => !pyStartsWith x "/broadcast") = true := by
    decide
  simpa using List.all_eq_true.mp hall t h

/-- deleteState does not change the users lookup. -/
theorem get_user_deleteState (db : DB) (c c2 : Int) :
    get_user (deleteState db c2) c = get_user db c := rfl

/-- C10: when a conversation with any active session sends a text equal (after
    stripping) to any main-menu button label of any of the four languages, the
    handler deletes that session at the global interceptor before any
    flow-step branch runs: the whole invocation behaves exactly as if the
    session had already been deleted (and the interceptor does delete it), so
    the in-progress flow is silently abandoned rather than re-prompted. -/
theorem C10_menu_interceptor (cfg : Config) (clock : Clock) (o : Oracle) (db : DB)
    (chat : Int) (m : Msg)
    (hsess : (getState db chat).isSome = true)
    (hmenu : get_all_menu_buttons.contains (pyStrip ((m.text).getD "")) = true) :
    webhook cfg clock o db (some chat) m =
      webhook cfg clock o (deleteState db chat) (some chat) m
  ∧ getState (deleteState db chat) chat = none := by
  refine ⟨?_, getState_deleteState db chat⟩
  have hbc : pyStartsWith (pyStrip ((m.text).getD "")) "/broadcast" = false :=
    menu_not_broadcast _ (List.mem_of_elem_eq_true hmenu)
  unfold webhook webhookChat
  simp only [hmenu, hbc, Bool.and_false, Bool.false_eq_true, if_false, if_true,
    deleteState_idem, get_user_deleteState]

/- ### C7 — claim lost the race -/

/-- A failed conditional UPDATE leaves the database unchanged. -/
theorem book_slot_atomic_false_eq (db : DB) (dt : String) (c : Int)
    (h : (book_slot_atomic db dt c).2 = false) : (book_slot_atomic db dt c).1 = db := by
  have h0 : List.countP (fun s : SlotRow => s.datetime_str == dt && !s.is_booked)
      db.slots = 0 := by
    simp only [book_slot_atomic, decide_eq_false_iff_not] at h
    omega
  have hmap := map_id_of_forall db.slots
    (fun s => if s.datetime_str == dt && !s.is_booked then
      { s with is_booked := true, booked_by := some c } else s)
    (fun s hs => by
      have hns := List.countP_eq_zero.mp h0 s hs
      simp [hns])
  simp only [book_slot_atomic]
  cases db
  simp_all

/-- insertSlotIfAbsent only touches slots and the id counter. -/
theorem insertSlotIfAbsent_states (db : DB) (dt : String) :
    (insertSlotIfAbsent db dt).states = db.states := by
  unfold insertSlotIfAbsent
  split <;> rfl

/-- insertSlotIfAbsent does not touch the users table. -/
theorem insertSlotIfAbsent_users (db : DB) (dt : String) :
    (insertSlotIfAbsent db dt).users = db.users := by
  unfold insertSlotIfAbsent
  split <;> rfl

/-- ensure_future_slots does not touch the states table. -/
theorem ensure_future_slots_states (clock : Clock) (db : DB) :
    (ensure_future_slots clock db).states = db.states := by
  unfold ensure_future_slots
  simp only
  have : ∀ (l : List String) (db0 : DB), (l.foldl insertSlotIfAbsent db0).states = db0.states := by
    intro l
    induction l with
    | nil => intro db0; rfl
    | cons a l ih =>
      intro db0
      rw [List.foldl_cons, ih, insertSlotIfAbsent_states]
  rw [this]

/-- ensure_future_slots does not touch the users table. -/
theorem ensure_future_slots_users (clock : Clock) (db : DB) :
    (ensure_future_slots clock db).users = db.users := by
  unfold ensure_future_slots
  simp only
  have : ∀ (l : List String) (db0 : DB), (l.foldl insertSlotIfAbsent db0).users = db0.users := by
    intro l
    induction l with
    | nil => intro db0; rfl
    | cons a l ih =>
      intro db0
      rw [List.foldl_cons, ih, insertSlotIfAbsent_users]
  rw [this]

/-- The maintenance pass written as one equation (insertion fold, then the
    prune of rows older than yesterday). -/
theorem ensure_future_slots_def (clock : Clock) (db : DB) :
    ensure_future_slots clock db =
      { (slotTimes clock).foldl insertSlotIfAbsent db with
        slots := ((slotTimes clock).foldl insertSlotIfAbsent db).slots.filter
          (fun s => !strLt s.datetime_str clock.yesterdayStr) } := rfl

/-- Every booked row surviving ensure_future_slots was already in the table:
    the maintenance pass inserts only unbooked rows and deletes rows, so it
    books nothing. -/
theorem ensure_future_slots_booked_mem (clock : Clock) (db : DB) :
    ∀ s ∈ (ensure_future_slots clock db).slots, s.is_booked = true → s ∈ db.slots := by
  have hfold : ∀ (l : List String) (db0 : DB) (s : SlotRow),
      s ∈ (l.foldl insertSlotIfAbsent db0).slots → s ∈ db0.slots ∨ s.is_booked = false := by
    intro l
    induction l with
    | nil => intro db0 s hs; exact .inl hs
    | cons a l ih =>
      intro db0 s hs
      rw [List.foldl_cons] at hs
      rcases ih (insertSlotIfAbsent db0 a) s hs with h | h
      · unfold insertSlotIfAbsent at h
        split at h
        · exact .inl h
        · simp only [List.mem_append, List.mem_singleton] at h
          rcases h with h | h
          · exact .inl h
          · subst h
            exact .inr rfl
      · exact .inr h
  intro s hs hb
  rw [ensure_future_slots_def] at hs
  generalize hl : slotTimes clock = l at hs
  simp only [List.mem_filter] at hs
  rcases hfold l db s hs.1 with h | h
  · exact h
  · rw [hb] at h
    cases h

/-- The slot-taken text of any language never equals a booking confirmation
    text of any language. -/
theorem slot_taken_ne_booking_done (l1 l2 : String) :
    (TRANSget l1).slot_taken ≠ (TRANSget l2).booking_done := by
  unfold TRANSget
  split_ifs <;> decide

/-- C7: in the SelectingSlot step, when the resolved slot's atomic claim
    returns false (a concurrent delivery booked it between the SELECT and the
    UPDATE), the session rows are untouched (the chat stays in SelectingSlot),
    the reply is exactly a slot-taken message re-presenting the re-fetched
    availability, no booking confirmation is sent, and no slot becomes booked
    in the transition (in particular none by this conversation). -/
theorem C7_slot_conflict (cfg : Config) (clock : Clock) (dbSel dbBook : DB) (chat : Int)
    (text lang : String) (userName userWhatsapp : Option String) (fullSlot : String)
    (hres : resolve_slot dbSel text = some fullSlot)
    (hbk : (book_slot_atomic dbBook fullSlot chat).2 = false) :
    (slotStepRace cfg clock dbSel dbBook chat text lang userName userWhatsapp).1.states
      = dbBook.states
  ∧ (slotStepRace cfg clock dbSel dbBook chat text lang userName userWhatsapp).2
      = [.send chat (TRANSget lang).slot_taken
          (slots_keyboard (get_available_slots clock dbBook).2)]
  ∧ (∀ l2 : String, Effect.send chat (TRANSget l2).booking_done (main_keyboard l2) ∉
      (slotStepRace cfg clock dbSel dbBook chat text lang userName userWhatsapp).2)
  ∧ (∀ s ∈ (slotStepRace cfg clock dbSel dbBook chat text lang userName
        userWhatsapp).1.slots, s.is_booked = true → s ∈ dbBook.slots) := by
  have hid := book_slot_atomic_false_eq dbBook fullSlot chat hbk
  have hrace : slotStepRace cfg clock dbSel dbBook chat text lang userName userWhatsapp =
      ((get_available_slots clock dbBook).1,
       [.send chat (TRANSget lang).slot_taken
          (slots_keyboard (get_available_slots clock dbBook).2)]) := by
    unfold slotStepRace
    rw [hres]
    simp only [hbk, Bool.false_eq_true, if_false, hid]
  rw [hrace]
  refine ⟨?_, rfl, ?_, ?_⟩
  · exact ensure_future_slots_states clock dbBook
  · intro l2
    simp only [List.mem_singleton]
    intro h
    have := slot_taken_ne_booking_done lang l2
    injection h with h1 h2 h3
    exact this h2.symm
  · exact ensure_future_slots_booked_mem clock dbBook

/-- Concrete race: the SELECT snapshot still sees the slot unbooked. -/
def dbSelRace : DB :=
  ⟨[], [⟨5, "booking", "slot", {}⟩], [⟨0, "2026-03-06 10:00", false, none, false⟩], 1⟩

/-- Concrete race: a concurrent delivery booked the slot for chat 99 before
    the UPDATE ran. -/
def dbBookRace : DB :=
  ⟨[], [⟨5, "booking", "slot", {}⟩], [⟨0, "2026-03-06 10:00", true, some 99, false⟩], 1⟩

/-- Witness for C7 at the concrete race: the session rows survive the failed
    claim. -/
theorem C7_witness :
    (slotStepRace exCfg exClock dbSelRace dbBookRace 5 "03-06 10:00" "en" (some "Ali")
      (some "0912")).1.states = dbBookRace.states :=
  (C7_slot_conflict exCfg exClock dbSelRace dbBookRace 5 "03-06 10:00" "en" (some "Ali")
    (some "0912") "2026-03-06 10:00" (by decide) (by decide)).1

/-- Concrete database with a registered user and a contact-verification
    session. -/
def dbPhoneStep : DB :=
  ⟨[⟨5, none, none, none, "en"⟩],
   [⟨5, "reg", "phone", { lang := some "en", name := some "Ali", whatsapp := some "0912" }⟩],
   [], 0⟩

/-- Witness for C10: a contact-step session plus the text Services runs
    exactly as on a database whose session is already gone. -/
theorem C10_witness :
    (webhook exCfg exClock exOracle dbPhoneStep (some 5) { text := some "Services" } =
      webhook exCfg exClock exOracle (deleteState dbPhoneStep 5) (some 5)
        { text := some "Services" })
  ∧ getState (deleteState dbPhoneStep 5) 5 = none :=
  C10_menu_interceptor exCfg exClock exOracle dbPhoneStep 5 { text := some "Services" }
    (by decide) (by decide)

/- ### C2 — contact-gate integrity -/

/-- Reduction of one webhook invocation to the contact-verification branch
    under the conditions that select it. -/
theorem webhook_contact_branch (cfg : Config) (clock : Clock) (o : Oracle) (db : DB)
    (chat : Int) (m : Msg) (st : StateRow)
    (hst : getState db chat = some st)
    (hstep : st.step = "phone")
    (hadmin : (pyStrInt chat == adminStr cfg &&
      pyStartsWith (pyStrip ((m.text).getD "")) "/broadcast") = false)
    (hphoto : m.photo = none)
    (hmenu : get_all_menu_buttons.contains (pyStrip ((m.text).getD "")) = false) :
    webhook cfg clock o db (some chat) m =
      handleContact db chat m st.data
        (match get_user db chat with
         | some u => u.lang
         | none => "en") := by
  unfold webhook webhookChat
  simp only [hadmin, hmenu, hphoto, hst, optStep, optData, hstep, Bool.false_eq_true,
    if_false, Option.isSome_none, beq_self_eq_true, if_true]

/-- C2 (amended): while a registration session sits in the contact step, for
    any non-photo, non-menu-button, non-admin-broadcast message: a platform
    contact whose user_id equals the chat id (with a non-empty phone number)
    is the only input that writes a phone — the users rows of this chat then
    hold exactly the shared phone_number and the session is deleted; a contact
    owned by someone else or any non-contact input leaves the database
    entirely unchanged (the session stays in the contact step, no phone is
    written) and sends one corrective re-prompt. -/
theorem C2_contact_gate (cfg : Config) (clock : Clock) (o : Oracle) (db : DB)
    (chat : Int) (m : Msg) (st : StateRow)
    (hst : getState db chat = some st)
    (hflow : st.flow_type = "reg")
    (hstep : st.step = "phone")
    (hadmin : (pyStrInt chat == adminStr cfg &&
      pyStartsWith (pyStrip ((m.text).getD "")) "/broadcast") = false)
    (hphoto : m.photo = none)
    (hmenu : get_all_menu_buttons.contains (pyStrip ((m.text).getD "")) = false) :
    (∀ c : Contact, m.contact = some c → c.user_id = some chat → c.phone_number ≠ "" →
      (∀ u ∈ (webhook cfg clock o db (some chat) m).1.users, u.chat_id = chat →
        u.phone = some c.phone_number)
      ∧ getState (webhook cfg clock o db (some chat) m).1 chat = none
      ∧ (webhook cfg clock o db (some chat) m).2 =
          [.send chat (TRANSget ((st.data.lang).getD "")).reg_complete
            (main_keyboard ((st.data.lang).getD ""))])
  ∧ (∀ c : Contact, m.contact = some c → c.user_id ≠ some chat →
      (webhook cfg clock o db (some chat) m).1 = db
      ∧ (webhook cfg clock o db (some chat) m).2 =
          [.send chat "Error: Not your contact."
            (contact_keyboard
              (match get_user db chat with
               | some u => u.lang
               | none => "en"))])
  ∧ (m.contact = none →
      (webhook cfg clock o db (some chat) m).1 = db
      ∧ (webhook cfg clock o db (some chat) m).2 =
          [.send chat (TRANSget ((st.data.lang).getD "")).use_button_error
            (contact_keyboard ((st.data.lang).getD ""))]) := by
  have hred := webhook_contact_branch cfg clock o db chat m st hst hstep hadmin hphoto hmenu
  refine ⟨?_, ?_, ?_⟩
  · intro c hc hcid hpn
    rw [hred]
    unfold handleContact
    rw [hc]
    have : (c.user_id != some chat) = false := by
      simp [hcid]
    simp only [this, Bool.false_eq_true, if_false]
    refine ⟨?_, ?_, by trivial⟩
    · intro u hu hchat
      exact upsert_user_phone db chat st.data.name st.data.whatsapp st.data.lang
        c.phone_number hpn u hu hchat
    · exact getState_deleteState _ chat
  · intro c hc hcid
    rw [hred]
    unfold handleContact
    rw [hc]
    have : (c.user_id != some chat) = true := by
      simpa using hcid
    simp only [this, if_true]
    exact ⟨by trivial, by trivial⟩
  · intro hc
    rw [hred]
    unfold handleContact
    rw [hc]
    exact ⟨by trivial, by trivial⟩

/-- Concrete contact-step session for chat 9 (user row created earlier at the
    language step). -/
def dbContactStep : DB :=
  ⟨[⟨9, none, none, none, "en"⟩],
   [⟨9, "reg", "phone", { lang := some "en", name := some "Bob", whatsapp := some "0500" }⟩],
   [], 0⟩

/-- Witness for C2 (amended): a plain text in the contact step changes nothing
    and re-prompts for the contact button. -/
theorem C2_witness :
    (webhook exCfg exClock exOracle dbContactStep (some 9) { text := some "hello" }).1 =
      dbContactStep
  ∧ (webhook exCfg exClock exOracle dbContactStep (some 9) { text := some "hello" }).2 =
      [.send 9 enTexts.use_button_error (contact_keyboard "en")] :=
  (C2_contact_gate exCfg exClock exOracle dbContactStep 9 { text := some "hello" }
    ⟨9, "reg", "phone", { lang := some "en", name := some "Bob", whatsapp := some "0500" }⟩
    (by decide) rfl rfl (by decide) rfl (by decide)).2.2 rfl

/-- C2 counterexample: the claim as stated is false — in the contact step a
    text equal to a main-menu button label (here Services) does not leave the
    session in the contact step with a corrective re-prompt: the global
    interceptor deletes the session and the menu branch answers with the
    services reply. -/
theorem C2_counterexample :
    getState (webhook exCfg exClock exOracle dbContactStep (some 9)
      { text := some "Services" }).1 9 = none
  ∧ (webhook exCfg exClock exOracle dbContactStep (some 9) { text := some "Services" }).2 =
      [.send 9 (enTexts.greeting "None" ++ "\n" ++ enTexts.services_reply)
        (main_keyboard "en")] := by
  constructor
  · decide
  · decide

/- ### C5 — registration flow shape -/

/-- A detected language code is one of the four supported, never empty. -/
theorem detect_language_ne_empty (t sel : String) (h : detect_language t = some sel) :
    sel ≠ "" := by
  simp only [detect_language] at h
  split_ifs at h <;> simp only [Option.some.injEq] at h <;> first
    | (subst h; decide)
    | cases h

/-- A prefix of a list whose dropWhile is itself also has that property. -/
theorem dropWhile_prefix_self {p : Char → Bool} {A B : List Char}
    (hpre : B <+: A) (hA : A.dropWhile p = A) : B.dropWhile p = B := by
  obtain ⟨t, rfl⟩ := hpre
  rcases B with _ | ⟨b, B2⟩
  · rfl
  · have h2 := (List.dropWhile_eq_self_iff).mp hA (by simp)
    simp only [List.cons_append, List.get] at h2
    simpa [h2] using List.dropWhile_cons_of_neg (l := B2) h2

/-- Python strip is idempotent. -/
theorem pyStrip_idem (s : String) : pyStrip (pyStrip s) = pyStrip s := by
  unfold pyStrip
  congr 1
  have hd : (List.rdropWhile isPySpace (s.data.dropWhile isPySpace)).dropWhile isPySpace
      = List.rdropWhile isPySpace (s.data.dropWhile isPySpace) :=
    dropWhile_prefix_self (List.rdropWhile_prefix _ _) (List.dropWhile_idempotent _ _)
  show List.rdropWhile isPySpace
      ((List.rdropWhile isPySpace (s.data.dropWhile isPySpace)).dropWhile isPySpace)
    = List.rdropWhile isPySpace (s.data.dropWhile isPySpace)
  rw [hd, List.rdropWhile_idempotent]

/-- upsert_user does not change the session lookup. -/
theorem getState_upsert_user (db : DB) (c : Int) (n w p l : Option String) (chat : Int) :
    getState (upsert_user db c n w p l) chat = getState db chat := by
  unfold getState
  rw [upsert_user_states]

/-- Reduction of one webhook invocation to the registration-step branch under
    the conditions that select it. -/
theorem webhook_reg_branch (cfg : Config) (clock : Clock) (o : Oracle) (db : DB)
    (chat : Int) (m : Msg) (st : StateRow)
    (hst : getState db chat = some st)
    (hflow : st.flow_type = "reg")
    (hsteps : st.step = "lang" ∨ st.step = "name" ∨ st.step = "whatsapp")
    (hadmin : (pyStrInt chat == adminStr cfg &&
      pyStartsWith (pyStrip ((m.text).getD "")) "/broadcast") = false)
    (hphoto : m.photo = none)
    (hmenu : get_all_menu_buttons.contains (pyStrip ((m.text).getD "")) = false)
    (hstart : pyStrip ((m.text).getD "") ≠ "/start") :
    webhook cfg clock o db (some chat) m =
      handleRegStep db chat (pyStrip ((m.text).getD "")) st.step st.data := by
  rcases hsteps with h | h | h <;>
    (unfold webhook webhookChat
     simp only [hadmin, hmenu, hphoto, hst, optStep, optFlow, optData, hflow, h,
       Bool.false_eq_true, if_false, Option.isSome_none, beq_iff_eq, hstart, if_true]
     simp)

/-- C5 (amended): a registration session advances lang → name → whatsapp →
    phone (an extra WhatsApp step precedes the contact step). A users row for
    the conversation already exists right after the language step — carrying
    the chosen language — before registration completes; the name and
    whatsapp replies are stored in the session scratch, the users table
    untouched; at the terminal contact step a matching contact upserts the
    profile and deletes the session. All under input that is not a photo, not
    a menu-button label, not an admin broadcast and not the start command. -/
theorem C5_registration_flow (cfg : Config) (clock : Clock) (o : Oracle) (db : DB)
    (chat : Int) (m : Msg) (st : StateRow)
    (hst : getState db chat = some st)
    (hflow : st.flow_type = "reg")
    (hadmin : (pyStrInt chat == adminStr cfg &&
      pyStartsWith (pyStrip ((m.text).getD "")) "/broadcast") = false)
    (hphoto : m.photo = none)
    (hmenu : get_all_menu_buttons.contains (pyStrip ((m.text).getD "")) = false)
    (hstart : pyStrip ((m.text).getD "") ≠ "/start") :
    (st.step = "lang" → ∀ sel, detect_language (pyStrip ((m.text).getD "")) = some sel →
        getState (webhook cfg clock o db (some chat) m).1 chat =
          some { st with step := "name", data := { lang := some sel } }
      ∧ (∀ u ∈ (webhook cfg clock o db (some chat) m).1.users, u.chat_id = chat →
          u.lang = sel)
      ∧ (get_user (webhook cfg clock o db (some chat) m).1 chat).isSome = true)
  ∧ (st.step = "lang" → detect_language (pyStrip ((m.text).getD "")) = none →
        (webhook cfg clock o db (some chat) m).1 = db)
  ∧ (st.step = "name" →
      languageButtonLabels.contains (pyStrip ((m.text).getD "")) = false →
        getState (webhook cfg clock o db (some chat) m).1 chat =
          some { st with step := "whatsapp", data := { st.data with name := some (pyStrip ((m.text).getD "")) } }
      ∧ (webhook cfg clock o db (some chat) m).1.users = db.users)
  ∧ (st.step = "name" →
      languageButtonLabels.contains (pyStrip ((m.text).getD "")) = true →
        (webhook cfg clock o db (some chat) m).1 = db)
  ∧ (st.step = "whatsapp" →
        getState (webhook cfg clock o db (some chat) m).1 chat =
          some { st with step := "phone", data := { st.data with whatsapp := some (pyStrip ((m.text).getD "")) } }
      ∧ (webhook cfg clock o db (some chat) m).1.users = db.users)
  ∧ (st.step = "phone" → ∀ c : Contact, m.contact = some c → c.user_id = some chat →
        getState (webhook cfg clock o db (some chat) m).1 chat = none
      ∧ (get_user (webhook cfg clock o db (some chat) m).1 chat).isSome = true) := by
  refine ⟨?_, ?_, ?_, ?_, ?_, ?_⟩
  · intro hstep sel hsel
    rw [webhook_reg_branch cfg clock o db chat m st hst hflow (.inl hstep) hadmin hphoto
      hmenu hstart]
    unfold handleRegStep
    rw [hstep]
    simp only [if_true, String.reduceEq, reduceIte, hsel]
    refine ⟨?_, ?_, ?_⟩
    · rw [getState_updateState, getState_upsert_user, hst]
      rfl
    · intro u hu hchat
      exact upsert_user_lang db chat none none none sel
        (detect_language_ne_empty _ sel hsel) u hu hchat
    · exact upsert_user_exists db chat none none none (some sel)
  · intro hstep hsel
    rw [webhook_reg_branch cfg clock o db chat m st hst hflow (.inl hstep) hadmin hphoto
      hmenu hstart]
    unfold handleRegStep
    rw [hstep]
    simp only [if_true, String.reduceEq, reduceIte, hsel]
  · intro hstep hbtn
    rw [webhook_reg_branch cfg clock o db chat m st hst hflow (.inr (.inl hstep)) hadmin
      hphoto hmenu hstart]
    unfold handleRegStep
    rw [hstep]
    simp only [String.reduceEq, reduceIte, pyStrip_idem, hbtn, Bool.false_eq_true,
      if_false, if_true]
    constructor
    · rw [getState_updateState, hst]
      rfl
    · rfl
  · intro hstep hbtn
    rw [webhook_reg_branch cfg clock o db chat m st hst hflow (.inr (.inl hstep)) hadmin
      hphoto hmenu hstart]
    unfold handleRegStep
    rw [hstep]
    simp only [String.reduceEq, reduceIte, pyStrip_idem, hbtn, if_true]
  · intro hstep
    rw [webhook_reg_branch cfg clock o db chat m st hst hflow (.inr (.inr hstep)) hadmin
      hphoto hmenu hstart]
    unfold handleRegStep
    rw [hstep]
    simp only [String.reduceEq, reduceIte]
    constructor
    · rw [getState_updateState, hst]
      rfl
    · rfl
  · intro hstep c hc hcid
    rw [webhook_contact_branch cfg clock o db chat m st hst hstep hadmin hphoto hmenu]
    unfold handleContact
    rw [hc]
    have hne : (c.user_id != some chat) = false := by simp [hcid]
    simp only [hne, Bool.false_eq_true, if_false]
    constructor
    · exact getState_deleteState _ chat
    · exact upsert_user_exists db chat st.data.name st.data.whatsapp (some c.phone_number)
        st.data.lang

/-- Concrete fresh registration session at the language step (no users row
    yet). -/
def dbRegLang : DB := ⟨[], [⟨5, "reg", "lang", {}⟩], [], 0⟩

/-- Concrete registration session at the name step. -/
def dbRegName : DB :=
  ⟨[⟨5, none, none, none, "en"⟩], [⟨5, "reg", "name", { lang := some "en" }⟩], [], 0⟩

/-- C5 counterexample: the claim as stated is false on two counts. Choosing
    the language English already creates the users row (a Profile row exists
    while the session is still three steps from completion), and the step
    after the name reply is whatsapp, not the contact step. -/
theorem C5_counterexample :
    get_user (webhook exCfg exClock exOracle dbRegLang (some 5)
        { text := some "English" }).1 5 = some ⟨5, none, none, none, "en"⟩
  ∧ getState (webhook exCfg exClock exOracle dbRegLang (some 5)
        { text := some "English" }).1 5 = some ⟨5, "reg", "name", { lang := some "en" }⟩
  ∧ getState (webhook exCfg exClock exOracle dbRegName (some 5)
        { text := some "Ali" }).1 5 =
      some ⟨5, "reg", "whatsapp", { lang := some "en", name := some "Ali" }⟩ := by
  refine ⟨?_, ?_, ?_⟩ <;> decide

/-- Witness for C5 (amended) at the whatsapp step: the reply is stored in the
    scratch and the step advances to phone. -/
theorem C5_witness :
    getState (webhook exCfg exClock exOracle
        ⟨[⟨5, none, none, none, "en"⟩],
         [⟨5, "reg", "whatsapp", { lang := some "en", name := some "Ali" }⟩], [], 0⟩
        (some 5) { text := some "0501" }).1 5 =
      some ⟨5, "reg", "phone", { lang := some "en", name := some "Ali", whatsapp := some "0501" }⟩
  ∧ (webhook exCfg exClock exOracle
        ⟨[⟨5, none, none, none, "en"⟩],
         [⟨5, "reg", "whatsapp", { lang := some "en", name := some "Ali" }⟩], [], 0⟩
        (some 5) { text := some "0501" }).1.users =
      (⟨[⟨5, none, none, none, "en"⟩],
        [⟨5, "reg", "whatsapp", { lang := some "en", name := some "Ali" }⟩], [], 0⟩ : DB).users :=
  (C5_registration_flow exCfg exClock exOracle
    ⟨[⟨5, none, none, none, "en"⟩],
     [⟨5, "reg", "whatsapp", { lang := some "en", name := some "Ali" }⟩], [], 0⟩
    5 { text := some "0501" }
    ⟨5, "reg", "whatsapp", { lang := some "en", name := some "Ali" }⟩
    (by decide) rfl (by decide) rfl (by decide) (by decide)).2.2.2.2.1 rfl

/- ### C8 — cancel transition of the booking flow -/

/-- Reduction of one webhook invocation to the booking-flow branch under the
    conditions that select it. -/
theorem webhook_booking_branch (cfg : Config) (clock : Clock) (o : Oracle) (db : DB)
    (chat : Int) (m : Msg) (st : StateRow) (u : UserRow)
    (hst : getState db chat = some st)
    (hflow : st.flow_type = "booking")
    (hphone : st.step ≠ "phone")
    (huser : get_user db chat = some u)
    (hadmin : (pyStrInt chat == adminStr cfg &&
      pyStartsWith (pyStrip ((m.text).getD "")) "/broadcast") = false)
    (hphoto : m.photo = none)
    (hmenu : get_all_menu_buttons.contains (pyStrip ((m.text).getD "")) = false)
    (hstart : pyStrip ((m.text).getD "") ≠ "/start")
    (hguard : (isCancelText (pyStrip ((m.text).getD "")) ||
      ["service", "doctor", "slot"].contains st.step) = true) :
    webhook cfg clock o db (some chat) m =
      handleBookingStep cfg clock db chat (pyStrip ((m.text).getD "")) u.lang u.name
        u.whatsapp st.step st.data := by
  unfold webhook webhookChat
  simp only [hadmin, hmenu, hphoto, hst, optStep, optFlow, optData, hflow, huser,
    Bool.false_eq_true, if_false, Option.isSome_none, beq_iff_eq, hstart, hphone,
    if_true, hguard, Option.isNone_some]
  simp [hguard]

/-- C8 (amended): the cancel test of the booking flow recognizes exactly the
    case-insensitive English substring cancel and the Persian substring لغو —
    Arabic and Russian cancel synonyms are not in the set. From every booking
    step, a text passing that test deletes the session, sends the localized
    cancellation confirmation of the user's language, and leaves the users and
    slots tables unchanged — no slot is booked. -/
theorem C8_cancel (cfg : Config) (clock : Clock) (o : Oracle) (db : DB)
    (chat : Int) (m : Msg) (st : StateRow) (u : UserRow)
    (hst : getState db chat = some st)
    (hflow : st.flow_type = "booking")
    (hphone : st.step ≠ "phone")
    (huser : get_user db chat = some u)
    (hadmin : (pyStrInt chat == adminStr cfg &&
      pyStartsWith (pyStrip ((m.text).getD "")) "/broadcast") = false)
    (hphoto : m.photo = none)
    (hmenu : get_all_menu_buttons.contains (pyStrip ((m.text).getD "")) = false)
    (hcancel : isCancelText (pyStrip ((m.text).getD "")) = true) :
    (isCancelText (pyStrip ((m.text).getD "")) =
      (strContains (pyLower (pyStrip ((m.text).getD ""))) "cancel" ||
        strContains (pyStrip ((m.text).getD "")) "لغو"))
  ∧ getState (webhook cfg clock o db (some chat) m).1 chat = none
  ∧ (webhook cfg clock o db (some chat) m).1.users = db.users
  ∧ (webhook cfg clock o db (some chat) m).1.slots = db.slots
  ∧ (webhook cfg clock o db (some chat) m).2 =
      [.send chat (TRANSget u.lang).cancelled (main_keyboard u.lang)] := by
  have hstart : pyStrip ((m.text).getD "") ≠ "/start" := by
    intro h
    rw [h] at hcancel
    exact absurd hcancel (by decide)
  have hred := webhook_booking_branch cfg clock o db chat m st u hst hflow hphone huser
    hadmin hphoto hmenu hstart (by simp [hcancel])
  refine ⟨rfl, ?_, ?_, ?_, ?_⟩ <;> rw [hred] <;> unfold handleBookingStep <;>
    simp only [hcancel, if_true] <;>
    first
      | exact getState_deleteState _ chat
      | rfl
      | trivial

/-- Concrete booking session of a registered Russian-language user at the
    service step. -/
def dbRuBooking : DB :=
  ⟨[⟨5, some "Ivan", some "0912", some "+100", "ru"⟩], [⟨5, "booking", "service", {}⟩],
   [], 0⟩

/-- C8 counterexample: the Russian cancel synonym отмена does not cancel — it
    is consumed as the service name and the session advances to the doctor
    step with no cancellation confirmation. -/
theorem C8_counterexample :
    getState (webhook exCfg exClock exOracle dbRuBooking (some 5)
        { text := some "отмена" }).1 5 =
      some ⟨5, "booking", "doctor", { service := some "отмена" }⟩
  ∧ (webhook exCfg exClock exOracle dbRuBooking (some 5) { text := some "отмена" }).2 =
      [.send 5 ruTexts.doctor_prompt []] := by
  constructor
  · decide
  · decide

/-- Witness for C8 (amended): a doctor-step booking session of the Russian
    user is cancelled by the English keyword. -/
theorem C8_witness :
    getState (webhook exCfg exClock exOracle
        ⟨[⟨5, some "Ivan", some "0912", some "+100", "ru"⟩],
         [⟨5, "booking", "doctor", { service := some "cleaning" }⟩], [], 0⟩
        (some 5) { text := some "Cancel" }).1 5 = none
  ∧ (webhook exCfg exClock exOracle
        ⟨[⟨5, some "Ivan", some "0912", some "+100", "ru"⟩],
         [⟨5, "booking", "doctor", { service := some "cleaning" }⟩], [], 0⟩
        (some 5) { text := some "Cancel" }).2 =
      [.send 5 ruTexts.cancelled (main_keyboard "ru")] := by
  have h := C8_cancel exCfg exClock exOracle
    ⟨[⟨5, some "Ivan", some "0912", some "+100", "ru"⟩],
     [⟨5, "booking", "doctor", { service := some "cleaning" }⟩], [], 0⟩
    5 { text := some "Cancel" }
    ⟨5, "booking", "doctor", { service := some "cleaning" }⟩
    ⟨5, some "Ivan", some "0912", some "+100", "ru"⟩
    (by decide) rfl (by decide) (by decide) (by decide) rfl (by decide) (by decide)
  exact ⟨h.2.1, h.2.2.2.2⟩

/- ### C3 — slot-reply matching -/

/-- A successful find? splits the list at the first row satisfying the
    predicate. -/
theorem find?_eq_some_split {α : Type} (p : α → Bool) (l : List α) (a : α)
    (h : l.find? p = some a) :
    ∃ l1 l2, l = l1 ++ a :: l2 ∧ (∀ x ∈ l1, p x = false) ∧ p a = true := by
  induction l with
  | nil => cases h
  | cons b l ih =>
    by_cases hb : p b = true
    · rw [List.find?_cons_of_pos _ hb] at h
      injection h with h
      subst h
      exact ⟨[], l, rfl, by simp, hb⟩
    · rw [List.find?_cons_of_neg _ (by simpa using hb)] at h
      obtain ⟨l1, l2, rfl, hall, hp⟩ := ih h
      refine ⟨b :: l1, l2, rfl, ?_, hp⟩
      intro x hx
      rcases List.mem_cons.mp hx with hx | hx
      · subst hx
        simpa using hb
      · exact hall x hx

/-- ensure_future_slots does not change the session lookup. -/
theorem getState_ensure_future_slots (clock : Clock) (db : DB) (chat : Int) :
    getState (ensure_future_slots clock db) chat = getState db chat := by
  unfold getState
  rw [ensure_future_slots_states]

/-- C3 (amended): in the SelectingSlot step the reply is resolved by a SQL
    suffix LIKE against ALL unbooked rows of the slots table in table (id)
    order — not against the presented future availability — and the first
    match is claimed and confirmed; only a reply matching no unbooked row at
    all is treated as invalid: then no claim is attempted, no slot becomes
    booked, the session stays in SelectingSlot, and a slot-taken message
    re-presents the re-fetched availability. -/
theorem C3_slot_matching (cfg : Config) (clock : Clock) (o : Oracle) (db : DB)
    (chat : Int) (m : Msg) (st : StateRow) (u : UserRow)
    (hst : getState db chat = some st)
    (hflow : st.flow_type = "booking")
    (hstep : st.step = "slot")
    (huser : get_user db chat = some u)
    (hadmin : (pyStrInt chat == adminStr cfg &&
      pyStartsWith (pyStrip ((m.text).getD "")) "/broadcast") = false)
    (hphoto : m.photo = none)
    (hmenu : get_all_menu_buttons.contains (pyStrip ((m.text).getD "")) = false)
    (hstart : pyStrip ((m.text).getD "") ≠ "/start")
    (hcancel : isCancelText (pyStrip ((m.text).getD "")) = false) :
    (∀ fs, resolve_slot db (pyStrip ((m.text).getD "")) = some fs →
      ∃ l1 s l2, db.slots = l1 ++ s :: l2 ∧ s.datetime_str = fs ∧ s.is_booked = false ∧
        sqlLike ("%" ++ pyStrip ((m.text).getD "")) fs = true ∧
        ∀ s2 ∈ l1, (sqlLike ("%" ++ pyStrip ((m.text).getD "")) s2.datetime_str &&
          !s2.is_booked) = false)
  ∧ (resolve_slot db (pyStrip ((m.text).getD "")) = none →
      ∀ s ∈ db.slots, (sqlLike ("%" ++ pyStrip ((m.text).getD "")) s.datetime_str &&
        !s.is_booked) = false)
  ∧ (∀ fs, resolve_slot db (pyStrip ((m.text).getD "")) = some fs →
      getState (webhook cfg clock o db (some chat) m).1 chat = none
      ∧ (webhook cfg clock o db (some chat) m).2 =
          [.send chat (TRANSget u.lang).booking_done (main_keyboard u.lang)] ++
            adminNotify cfg u.name u.whatsapp fs
      ∧ ∃ s ∈ (webhook cfg clock o db (some chat) m).1.slots,
          s.datetime_str = fs ∧ s.is_booked = true ∧ s.booked_by = some chat)
  ∧ (resolve_slot db (pyStrip ((m.text).getD "")) = none →
      getState (webhook cfg clock o db (some chat) m).1 chat = getState db chat
      ∧ (∀ s ∈ (webhook cfg clock o db (some chat) m).1.slots, s.is_booked = true →
          s ∈ db.slots)
      ∧ (webhook cfg clock o db (some chat) m).2 =
          [.send chat (TRANSget u.lang).slot_taken
            (slots_keyboard (get_available_slots clock db).2)]) := by
  have hphone : st.step ≠ "phone" := by
    rw [hstep]
    decide
  have hred := webhook_booking_branch cfg clock o db chat m st u hst hflow hphone huser
    hadmin hphoto hmenu hstart (by simp [hstep])
  have hslot : webhook cfg clock o db (some chat) m =
      slotStepRace cfg clock db db chat (pyStrip ((m.text).getD "")) u.lang u.name
        u.whatsapp := by
    rw [hred]
    unfold handleBookingStep
    rw [hstep]
    simp only [hcancel, Bool.false_eq_true, if_false, String.reduceEq, reduceIte]
  refine ⟨?_, ?_, ?_, ?_⟩
  · intro fs hfs
    unfold resolve_slot at hfs
    rw [Option.map_eq_some'] at hfs
    obtain ⟨s, hfind, hdt⟩ := hfs
    obtain ⟨l1, l2, hsplit, hall, hp⟩ := find?_eq_some_split _ _ _ hfind
    simp only [Bool.and_eq_true, Bool.not_eq_true'] at hp
    exact ⟨l1, s, l2, hsplit, hdt, hp.2, by rw [← hdt]; exact hp.1, hall⟩
  · intro hnone s hs
    unfold resolve_slot at hnone
    rw [Option.map_eq_none'] at hnone
    have := List.find?_eq_none.mp hnone s hs
    simpa using this
  · intro fs hfs
    -- the resolved key exists unbooked, so the sequential claim succeeds
    unfold resolve_slot at hfs
    rw [Option.map_eq_some'] at hfs
    obtain ⟨s, hfind, hdt⟩ := hfs
    have hmem : s ∈ db.slots := List.mem_of_find?_eq_some hfind
    have hp := List.find?_some hfind
    simp only [Bool.and_eq_true, Bool.not_eq_true'] at hp
    have hbook : (book_slot_atomic db fs chat).2 = true := by
      simp only [book_slot_atomic, decide_eq_true_eq]
      rw [gt_iff_lt, List.countP_pos_iff]
      exact ⟨s, hmem, by simp [hdt, hp.2]⟩
    rw [hslot]
    unfold slotStepRace
    have hres2 : resolve_slot db (pyStrip ((m.text).getD "")) = some fs := by
      unfold resolve_slot
      rw [hfind, Option.map_some', hdt]
    rw [hres2]
    simp only [hbook, if_true]
    refine ⟨getState_deleteState _ chat, by trivial, ?_⟩
    refine ⟨{ s with is_booked := true, booked_by := some chat }, ?_, by simpa using hdt,
      rfl, rfl⟩
    show _ ∈ (book_slot_atomic db fs chat).1.slots
    simp only [book_slot_atomic]
    exact List.mem_map.mpr ⟨s, hmem, by simp [← hdt, hp.2]⟩
  · intro hnone
    rw [hslot]
    unfold slotStepRace
    rw [hnone]
    exact ⟨getState_ensure_future_slots clock db chat, ensure_future_slots_booked_mem clock db,
      rfl⟩

/-- Concrete slot-step session: one unbooked slot from this morning (already
    in the past, so absent from the presented availability) and one future
    slot. -/
def dbSlotStep : DB :=
  { users := [⟨5, some "Ali", some "0912", some "+100", "en"⟩],
    states := [⟨5, "booking", "slot", { lang := some "en" }⟩],
    slots := [⟨0, "2026-03-05 10:00", false, none, false⟩,
              ⟨1, "2026-03-06 10:00", false, none, false⟩],
    nextSlotId := 2 }

/-- C3 counterexample: the claim as stated is false — the reply 03-05 10:00
    matches no slot of the currently presented available set (the slot is in
    the past), yet it is resolved against the whole table, a claim IS
    attempted and succeeds: the past slot gets booked and a confirmation is
    sent. -/
theorem C3_counterexample :
    resolve_slot dbSlotStep "03-05 10:00" = some "2026-03-05 10:00"
  ∧ ((get_available_slots exClock dbSlotStep).2.map
      (fun s => strDropChars s 5)).contains "03-05 10:00" = false
  ∧ (webhook exCfg exClock exOracle dbSlotStep (some 5) { text := some "03-05 10:00" }).2 =
      [.send 5 enTexts.booking_done (main_keyboard "en")]
  ∧ (webhook exCfg exClock exOracle dbSlotStep (some 5)
      { text := some "03-05 10:00" }).1.slots.head? =
      some ⟨0, "2026-03-05 10:00", true, some 5, false⟩ := by
  refine ⟨?_, ?_, ?_, ?_⟩ <;> decide

/-- Witness for C3 (amended), no-match case: a reply matching no unbooked row
    leaves the session in the slot step and re-presents availability with a
    slot-taken message, booking nothing. -/
theorem C3_witness :
    getState (webhook exCfg exClock exOracle dbSlotStep (some 5)
        { text := some "99:99" }).1 5 = getState dbSlotStep 5
  ∧ (webhook exCfg exClock exOracle dbSlotStep (some 5) { text := some "99:99" }).2 =
      [.send 5 enTexts.slot_taken
        (slots_keyboard (get_available_slots exClock dbSlotStep).2)] := by
  have h := C3_slot_matching exCfg exClock exOracle dbSlotStep 5 { text := some "99:99" }
    ⟨5, "booking", "slot", { lang := some "en" }⟩
    ⟨5, some "Ali", some "0912", some "+100", "en"⟩
    (by decide) rfl rfl (by decide) (by decide) rfl (by decide) (by decide) (by decide)
  have h2 := h.2.2.2 (by decide)
  exact ⟨h2.1, h2.2.2⟩

/- ### C4 — AI failure handling (debug behaviour leaks the error) -/

/-- Oracle whose Gemini text call fails with HTTP 500. -/
def oracleAiError : Oracle := { textOutcome := .statusError 500 "Internal Server Error" }

/-- A registered user with no active session. -/
def dbRegisteredAli : DB := ⟨[⟨5, some "Ali", some "0912", some "+100", "en"⟩], [], [], 0⟩

/-- C4 evaluation at the failing input: when the Gemini call of a registered
    free-text question returns HTTP 500, call_gemini_api RETURNS the error
    string (comment in source: show the error to the user for debugging) and
    the webhook sends it to the user verbatim behind the greeting — the status
    code and raw body reach the user, and no localized try-again apology is
    sent. This contradicts the specified error design, so the claim marks a
    code bug rather than a spec error. -/
theorem C4_ai_error_leaked :
    call_gemini_api (.statusError 500 "Internal Server Error") =
      "❌ AI Error 500: Internal Server Error"
  ∧ (webhook exCfg exClock oracleAiError dbRegisteredAli (some 5)
      { text := some "when do you open" }).2 =
    [.aiTextCall "when do you open" "en",
     .send 5 "Dear Ali, ❌ AI Error 500: Internal Server Error" (main_keyboard "en")]
  ∧ (analyze_image_with_gemini
      { visionOutcome := .statusError 500 "Internal Server Error" } =
      "❌ AI Error 500: Internal Server Error") := by
  refine ⟨?_, ?_, ?_⟩ <;> decide

/- ### C6 — registration gate -/

/-- The image branch never writes the database. -/
theorem handlePhoto_db (db : DB) (chat : Int) (o : Oracle) (m : Msg)
    (userRow : Option UserRow) (lang : String) :
    (handlePhoto db chat o m userRow lang).1 = db := by
  unfold handlePhoto
  rcases userRow with _ | u
  · rfl
  · dsimp only
    split
    · rfl
    · rcases o.fileInfo with _ | p <;> rfl

/-- The contact branch keeps the slots table and performs no AI call. -/
theorem handleContact_safety (db : DB) (chat : Int) (m : Msg) (d : SessData)
    (lang : String) :
    (handleContact db chat m d lang).1.slots = db.slots
  ∧ ∀ e ∈ (handleContact db chat m d lang).2, e.isAi = false := by
  unfold handleContact
  rcases hc : m.contact with _ | c
  · simp [Effect.isAi]
  · dsimp only
    split
    · simp [Effect.isAi]
    · constructor
      · show (deleteState (upsert_user db chat d.name d.whatsapp _ d.lang) chat).slots = _
        show (upsert_user db chat d.name d.whatsapp _ d.lang).slots = _
        rw [upsert_user_slots]
      · simp [Effect.isAi]

/-- The registration steps keep the slots table and perform no AI call. -/
theorem handleRegStep_safety (db : DB) (chat : Int) (text stp : String) (d : SessData) :
    (handleRegStep db chat text stp d).1.slots = db.slots
  ∧ ∀ e ∈ (handleRegStep db chat text stp d).2, e.isAi = false := by
  unfold handleRegStep
  by_cases h1 : stp = "lang"
  · rw [if_pos h1]
    cases hdl : detect_language text
    · simp [Effect.isAi]
    · refine ⟨?_, by simp [Effect.isAi]⟩
      show (updateState (upsert_user db chat none none none _) chat "name" _).slots = _
      show (upsert_user db chat none none none _).slots = _
      rw [upsert_user_slots]
  · rw [if_neg h1]
    by_cases h2 : stp = "name"
    · rw [if_pos h2]
      by_cases h3 : languageButtonLabels.contains (pyStrip text) = true
      · rw [if_pos h3]
        simp [Effect.isAi]
      · rw [if_neg h3]
        exact ⟨rfl, by simp [Effect.isAi]⟩
    · rw [if_neg h2]
      exact ⟨rfl, by simp [Effect.isAi]⟩

/-- C6 (amended): for every conversation with no users row, as long as the
    event is not the admin broadcast command, no Gemini call is made and the
    slots table is untouched — never a booking action or an AI-chat response;
    and whenever the event is not one continuing or completing registration
    (no surviving registration-flow or contact-step session), every reply sent
    is one of the three register-first prompts, and at least one is sent. An
    image from an unregistered conversation is discarded with a registration
    request. -/
theorem C6_registration_gate (cfg : Config) (clock : Clock) (o : Oracle) (db : DB)
    (chat : Int) (m : Msg)
    (huser : get_user db chat = none)
    (hadmin : (pyStrInt chat == adminStr cfg &&
      pyStartsWith (pyStrip ((m.text).getD "")) "/broadcast") = false) :
    (webhook cfg clock o db (some chat) m).1.slots = db.slots
  ∧ (∀ e ∈ (webhook cfg clock o db (some chat) m).2, e.isAi = false)
  ∧ ((match (if get_all_menu_buttons.contains (pyStrip ((m.text).getD ""))
        then (none : Option StateRow) else getState db chat) with
      | some st => st.flow_type ≠ "reg" ∧ st.step ≠ "phone"
      | none => True) →
      (webhook cfg clock o db (some chat) m).2 ≠ [] ∧
      ∀ e ∈ (webhook cfg clock o db (some chat) m).2,
        e ∈ ([.send chat "Please register first / لطفاً ثبت‌نام کنید" [],
          .send chat "Select Language / زبان را انتخاب کنید:" language_keyboard,
          .send chat "Type /start to register." []] : List Effect)) := by
  unfold webhook webhookChat
  simp only [hadmin, Bool.false_eq_true, if_false, huser, Option.isNone_none, if_true]
  by_cases hmenu : get_all_menu_buttons.contains (pyStrip ((m.text).getD "")) = true
  · simp only [hmenu, if_true, getState_deleteState, optStep, optFlow, optData]
    by_cases hphoto : (m.photo).isSome = true
    · simp only [hphoto, if_true, handlePhoto]
      exact ⟨by trivial, by simp [Effect.isAi], fun _ => ⟨by simp, by simp⟩⟩
    · rw [Bool.not_eq_true] at hphoto
      simp only [hphoto, Bool.false_eq_true, if_false]
      by_cases hstart : (pyStrip ((m.text).getD "") == "/start") = true
      · simp only [hstart, if_true, show (("" : String) == "phone") = false from rfl,
          Bool.false_eq_true, if_false]
        exact ⟨by trivial, by simp [Effect.isAi], fun _ => ⟨by simp, by simp⟩⟩
      · rw [Bool.not_eq_true] at hstart
        simp only [hstart, Bool.false_eq_true, if_false,
          show (("" : String) == "phone") = false from rfl,
          show (("" : String) == "reg") = false from rfl, Bool.false_and]
        exact ⟨by trivial, by simp [Effect.isAi], fun _ => ⟨by simp, by simp⟩⟩
  · rw [Bool.not_eq_true] at hmenu
    simp only [hmenu, Bool.false_eq_true, if_false]
    by_cases hphoto : (m.photo).isSome = true
    · simp only [hphoto, if_true, handlePhoto]
      exact ⟨by trivial, by simp [Effect.isAi], fun _ => ⟨by simp, by simp⟩⟩
    · rw [Bool.not_eq_true] at hphoto
      simp only [hphoto, Bool.false_eq_true, if_false]
      rcases hst : getState db chat with _ | st
      · simp only [optStep, optFlow, optData,
          show (("" : String) == "phone") = false from rfl,
          show (("" : String) == "reg") = false from rfl, Bool.false_eq_true, if_false,
          Bool.false_and]
        by_cases hstart : (pyStrip ((m.text).getD "") == "/start") = true
        · simp only [hstart, if_true]
          exact ⟨by trivial, by simp [Effect.isAi], fun _ => ⟨by simp, by simp⟩⟩
        · rw [Bool.not_eq_true] at hstart
          simp only [hstart, Bool.false_eq_true, if_false]
          exact ⟨by trivial, by simp [Effect.isAi], fun _ => ⟨by simp, by simp⟩⟩
      · simp only [optStep, optFlow, optData]
        by_cases hphone : (st.step == "phone") = true
        · simp only [hphone, if_true]
          have hc := handleContact_safety db chat m st.data "en"
          refine ⟨hc.1, hc.2, ?_⟩
          intro hcont
          exfalso
          exact hcont.2 (by simpa using hphone)
        · rw [Bool.not_eq_true] at hphone
          simp only [hphone, Bool.false_eq_true, if_false]
          by_cases hstart : (pyStrip ((m.text).getD "") == "/start") = true
          · simp only [hstart, if_true]
            exact ⟨by trivial, by simp [Effect.isAi], fun _ => ⟨by simp, by simp⟩⟩
          · rw [Bool.not_eq_true] at hstart
            simp only [hstart, Bool.false_eq_true, if_false]
            by_cases hreg : (st.flow_type == "reg" &&
                ["lang", "name", "whatsapp"].contains st.step) = true
            · simp only [hreg, if_true]
              have hr := handleRegStep_safety db chat (pyStrip ((m.text).getD ""))
                st.step st.data
              refine ⟨hr.1, hr.2, ?_⟩
              intro hcont
              exfalso
              rw [Bool.and_eq_true] at hreg
              exact hcont.1 (by simpa using hreg.1)
            · rw [Bool.not_eq_true] at hreg
              simp only [hreg, Bool.false_eq_true, if_false]
              exact ⟨by trivial, by simp [Effect.isAi], fun _ => ⟨by simp, by simp⟩⟩

/-- Configuration whose ADMIN_CHAT_ID is the conversation 7. -/
def cfgAdmin : Config := { adminChatId := some "7" }

/-- C6 counterexample: the claim as stated is false — a /broadcast command
    from the configured admin conversation, which has no users row, is served
    by the broadcast branch before the registration gate: the only message
    sent is the broadcast summary, not a prompt to start or continue
    registration. -/
theorem C6_counterexample :
    get_user (⟨[], [], [], 0⟩ : DB) 7 = none
  ∧ (webhook cfgAdmin exClock exOracle (⟨[], [], [], 0⟩ : DB) (some 7)
      { text := some "/broadcast hello" }).2 = [.send 7 "Sent to 0 users." []] := by
  constructor <;> decide

/-- Witness for C6 (amended): plain text from an unregistered conversation
    with no session draws exactly a register-first prompt. -/
theorem C6_witness :
    (webhook exCfg exClock exOracle (⟨[], [], [], 0⟩ : DB) (some 5)
      { text := some "hi" }).2 ≠ []
  ∧ ∀ e ∈ (webhook exCfg exClock exOracle (⟨[], [], [], 0⟩ : DB) (some 5)
      { text := some "hi" }).2,
      e ∈ ([.send 5 "Please register first / لطفاً ثبت‌نام کنید" [],
        .send 5 "Select Language / زبان را انتخاب کنید:" language_keyboard,
        .send 5 "Type /start to register." []] : List Effect) :=
  (C6_registration_gate exCfg exClock exOracle ⟨[], [], [], 0⟩ 5 { text := some "hi" }
    rfl (by decide)).2.2 trivial
